import Mathlib

/-!
# Weather report program (`main.go`): embedding and verified properties

The Go program fetches the current weather over HTTP (`GetInfoWeather`), decodes the
JSON answer into `WeatherResponse` (`json.Unmarshal` in `ExampleRun`) and prints a
report (`PrintWeatherReport`).

Conventions of the embedding:

* Go `string` is `String`; text written to standard output is a `List Char`.
* Go `int` and `int64` are `Int` (the decoder checks the 64-bit range explicitly).
* Go `float64` is the type `Float64` below: a sign, an integer mantissa and a binary
  exponent, or one of the special values.
* The outside world (standard output, the HTTP requests sent) is the record `World`,
  passed explicitly through every function that has effects.
* The network and the JSON text parser are library code: they are parameters.
-/

namespace Weather

/-! ## Values and formatting (`fmt`) -/

/-- Go `float64`: `fin neg mant exp` is the number `(-1)^neg * mant * 2^exp`. -/
inductive Float64 where
  | nan
  | inf (neg : Bool)
  | fin (neg : Bool) (mant : Nat) (exp : Int)
  deriving DecidableEq, Repr

/-- The zero value of `float64`. -/
def Float64.zero : Float64 := .fin false 0 0

/-- Operand of a formatting verb. -/
inductive Arg where
  | str (s : String)
  | int (i : Int)
  | float (f : Float64)
  deriving DecidableEq, Repr

/-- Verb `%d` on an integer: decimal digits, with a leading minus sign when negative. -/
def fmtInt : Int → List Char
  | .ofNat n => Nat.toDigits 10 n
  | .negSucc n => '-' :: Nat.toDigits 10 (n + 1)

/-- Quotient `num / den` rounded to the nearest integer, ties to the even one. -/
def roundHalfEven (num den : Nat) : Nat :=
  let q := num / den
  let r := num % den
  if den < 2 * r ∨ (2 * r = den ∧ q % 2 = 1) then q + 1 else q

/-- Ten times `mant * 2^exp`, rounded to the nearest integer (ties to even). -/
def tenths (mant : Nat) : Int → Nat
  | .ofNat k => mant * 2 ^ k * 10
  | .negSucc k => roundHalfEven (mant * 10) (2 ^ (k + 1))

/-- Verb `%.1f` on a `float64`: the exact value rounded to one decimal, ties to even;
the sign is kept on a zero result; the special values print as `NaN`, `+Inf`, `-Inf`. -/
def fmtFloat1 : Float64 → List Char
  | .nan => "NaN".data
  | .inf false => "+Inf".data
  | .inf true => "-Inf".data
  | .fin neg mant exp =>
    (if neg then ['-'] else []) ++
      (Nat.toDigits 10 (tenths mant exp / 10) ++ ['.', Nat.digitChar (tenths mant exp % 10)])

/-- The part of `fmt.Sprintf` that the program uses: `%%`, `%s` and `%v` on a string,
`%d` on an integer, `%.1f` on a float. Every other character is copied. (A verb with a
missing or ill-typed operand, which the program never has, is copied as well.) -/
def Sprintf : List Char → List Arg → List Char
  | [], _ => []
  | '%' :: '%' :: rest, args => '%' :: Sprintf rest args
  | '%' :: 's' :: rest, .str s :: args => s.data ++ Sprintf rest args
  | '%' :: 'v' :: rest, .str s :: args => s.data ++ Sprintf rest args
  | '%' :: 'd' :: rest, .int i :: args => fmtInt i ++ Sprintf rest args
  | '%' :: '.' :: '1' :: 'f' :: rest, .float f :: args => fmtFloat1 f ++ Sprintf rest args
  | c :: rest, args => c :: Sprintf rest args

/-! ## The outside world -/

/-- What the program does to its environment: the text written to standard output and
the URLs requested with `http.Get`, both in order. -/
structure World where
  stdout : List Char
  requests : List String
  deriving DecidableEq, Repr

/-- A fresh process: nothing written, nothing requested. -/
def World.start : World := ⟨[], []⟩

/-- Write text to standard output. -/
def World.write (w : World) (text : List Char) : World :=
  { w with stdout := w.stdout ++ text }

/-- Call `fmt.Println(s)`: the text and a line feed. `fmt.Println()` is `Println ""`. -/
def Println (s : String) (w : World) : World :=
  w.write (s.data ++ ['\n'])

/-- Call `fmt.Printf(format, args...)`. -/
def Printf (format : String) (args : List Arg) (w : World) : World :=
  w.write (Sprintf format.data args)

/-- How a function call ends: it returns, it panics at run time (index out of range),
or `log.Fatal` ends the process. -/
inductive Exit where
  | returned
  | panicked
  | fatal (err : String)
  deriving DecidableEq, Repr

/-! ## Data model (`main.go`, lines 11 to 68) -/

/-- Go struct `Request`. The field `Type` of the source is `Type_` here, the word being
reserved. -/
structure Request where
  Type_ : String
  Query : String
  Language : String
  Unit : String
  deriving DecidableEq, Repr

/-- Go struct `Location`. -/
structure Location where
  Name : String
  Country : String
  Region : String
  Lat : String
  Lon : String
  TimezoneID : String
  Localtime : String
  LocaltimeEpoch : Int
  UTCOffset : String
  deriving DecidableEq, Repr

/-- Go struct `Astro`. -/
structure Astro where
  Sunrise : String
  Sunset : String
  Moonrise : String
  Moonset : String
  MoonPhase : String
  MoonIllumination : Int
  deriving DecidableEq, Repr

/-- Go struct `Current`. -/
structure Current where
  ObservationTime : String
  Temperature : Int
  WeatherCode : Int
  WeatherIcons : List String
  WeatherDescriptions : List String
  Astro : Astro
  WindSpeed : Int
  WindDegree : Int
  WindDir : String
  Pressure : Int
  Precip : Float64
  Humidity : Int
  Cloudcover : Int
  Feelslike : Int
  UVIndex : Int
  Visibility : Int
  IsDay : String
  deriving DecidableEq, Repr

/-- Go struct `WeatherResponse`. -/
structure WeatherResponse where
  Request : Request
  Location : Location
  Current : Current
  deriving DecidableEq, Repr

/-! ## Reporter (`PrintWeatherReport`, lines 100 to 157) -/

/-- Function `PrintWeatherReport`. The operands of a call are evaluated before the call,
so an index out of range panics before anything of that line is written. -/
def PrintWeatherReport (weather : WeatherResponse) (w : World) : Exit × World :=
  let w := Println "=== Отчёт о погоде ===" w
  let w := Println "" w
  let w := Println "1. Общая информация:" w
  let w := Printf "- Тип запроса: %s\n" [.str weather.Request.Type_] w
  let w := Printf "- Местоположение: %s, %s\n"
    [.str weather.Location.Name, .str weather.Location.Country] w
  let w := Printf "- Координаты: Широта — %s, Долгота — %s\n"
    [.str weather.Location.Lat, .str weather.Location.Lon] w
  let w := Printf "- Временная зона: %s (UTC%s)\n"
    [.str weather.Location.TimezoneID, .str weather.Location.UTCOffset] w
  let w := Printf "- Локальное время: %s\n" [.str weather.Location.Localtime] w
  let w := Println "" w
  let w := Println "2. Текущая погода:" w
  let w := Printf "- Температура: %d°C\n" [.int weather.Current.Temperature] w
  let w := Printf "- Ощущается как: %d°C\n" [.int weather.Current.Feelslike] w
  match weather.Current.WeatherDescriptions[0]? with
  | none => (.panicked, w)
  | some description =>
  let w := Printf "- Погодные условия: %s\n" [.str description] w
  match weather.Current.WeatherIcons[0]? with
  | none => (.panicked, w)
  | some icon =>
  let w := Printf "- Иконка погоды: %s\n" [.str icon] w
  let w := Println "" w
  let w := Println "3. Ветер:" w
  let w := Printf "- Скорость ветра: %d км/ч\n" [.int weather.Current.WindSpeed] w
  let w := Printf "- Направление ветра: %s (%d°)\n"
    [.str weather.Current.WindDir, .int weather.Current.WindDegree] w
  let w := Println "" w
  let w := Println "4. Атмосферные условия:" w
  let w := Printf "- Давление: %d мбар\n" [.int weather.Current.Pressure] w
  let w := Printf "- Влажность: %d%%\n" [.int weather.Current.Humidity] w
  let w := Printf "- Облачность: %d%%\n" [.int weather.Current.Cloudcover] w
  let w := Printf "- Видимость: %d км\n" [.int weather.Current.Visibility] w
  let w := Printf "- Осадки: %.1f мм\n" [.float weather.Current.Precip] w
  let w := Println "" w
  let w := Println "5. Астрономические данные:" w
  let w := Printf "- Восход солнца: %s\n" [.str weather.Current.Astro.Sunrise] w
  let w := Printf "- Закат солнца: %s\n" [.str weather.Current.Astro.Sunset] w
  let w := Printf "- Восход луны: %s\n" [.str weather.Current.Astro.Moonrise] w
  let w := Printf "- Заход луны: %s\n" [.str weather.Current.Astro.Moonset] w
  let w := Printf "- Фаза луны: %s\n" [.str weather.Current.Astro.MoonPhase] w
  let w := Printf "- Освещённость луны: %d%%\n" [.int weather.Current.Astro.MoonIllumination] w
  let w := Println "" w
  let w := Println "7. Дополнительные наблюдения:" w
  let w := Printf "- УФ-индекс: %d\n" [.int weather.Current.UVIndex] w
  let w := Printf "- День или ночь: %s\n" [.str weather.Current.IsDay] w
  let w := Println "" w
  let w := Println "=== Выводы и рекомендации ===" w
  let w := Println "- Погода прохладная, одевайтесь теплее." w
  let w := Println "- Воздух чистый, можно планировать прогулки." w
  let w := Println "- День длится примерно 12 часов, наслаждайтесь световым днём." w
  (.returned, w)

/-! ## Fetcher (`GetInfoWeather`, lines 84 to 98) -/

/-- Body of an HTTP response, as the first call of its `Read` method sees it: the bytes
of the entity, how many of them the transport can hand over in that call, and the error
the call reports, if any. A reader may deliver bytes and report an error (such as the
end of the stream) in the same call. -/
structure Body where
  content : List UInt8
  avail : Nat
  readErr : Option String
  deriving DecidableEq, Repr

/-- The part of `http.Response` that the program can see. -/
structure Response where
  StatusCode : Int
  Body : Body
  deriving DecidableEq, Repr

/-- Method `Read` of the body, first call, on the buffer `p`: the buffer afterwards, the
number of bytes delivered and the error. At most `len(p)` bytes are delivered. -/
def Body.Read (b : Body) (p : List UInt8) : List UInt8 × Nat × Option String :=
  let n := min p.length (min b.avail b.content.length)
  (b.content.take n ++ p.drop n, n, b.readErr)

/-- Function `GetInfoWeather`. The parameter `net` is `http.Get`: it answers a URL with
an error or a response. -/
def GetInfoWeather (net : String → Except String Response) (key country region : String)
    (w : World) : Except String (List UInt8) × World :=
  let url := String.mk (Sprintf
    "https://api.weatherstack.com/current?access_key=%v&query=%v,%v".data
    [.str key, .str country, .str region])
  let w := { w with requests := w.requests ++ [url] }
  match net url with
  | .error err =>
    let w := Println err w
    (.error "error get pages", w)
  | .ok resp =>
    let bs := List.replicate 1014 (0 : UInt8)
    let (bs, n, err) := resp.Body.Read bs
    if n = 0 ∨ err ≠ none then
      (.error "error return get pages", w)
    else
      (.ok (bs.take n), w)

/-! ## Decoder (`json.Unmarshal` into `WeatherResponse`, lines 75 to 79)

The decoder is the library `encoding/json`, which is not among the sources; the sources
give the field tags of the four structs (lines 12 to 68) and the call (line 76). It is
modelled after section 4.2 of the specification (unknown keys are ignored, a field
without member keeps its value, a value of the wrong shape is an error) and the
documented behaviour of the library: members are decoded in order into the field whose
tag is the key up to case, `null` leaves a field as it is. The model works on parsed
JSON values; the parser of the JSON text is a parameter. A type error makes the whole
call fail (the text of the error is not modelled); Go goes on decoding after such an
error, but the value decoded is then not used by the program. -/

/-- A parsed JSON value. A number literal is given by what `strconv` makes of it:
`asInt` is the integer it denotes when it has neither fraction nor exponent (`none`
otherwise), `asFloat` the `float64` that `strconv.ParseFloat` returns for it (an
infinity when it is out of range). -/
inductive JSON where
  | null
  | bool (b : Bool)
  | num (asInt : Option Int) (asFloat : Float64)
  | str (s : String)
  | arr (elems : List JSON)
  | obj (members : List (String × JSON))

/-- The error of a value that does not fit the Go type it is decoded into. -/
def typeError : String := "json: cannot unmarshal value into Go value"

/-- Case folding of one character of a key: ASCII letters to lower case; the Kelvin sign
and the long s, which fold to `k` and `s`. -/
def foldChar (c : Char) : Char :=
  if c.isUpper then c.toLower
  else if c = Char.ofNat 0x212A then 'k'
  else if c = Char.ofNat 0x017F then 's'
  else c

/-- Case folding of a key. The tags of the program are in lower case, so a key selects
the field whose tag is its folding (an exact match is one of these). -/
def foldName (key : String) : String := String.mk (key.data.map foldChar)

/-- Decode into a `string`: a JSON string sets it, `null` leaves it as it is. -/
def decodeString (old : String) : JSON → Except String String
  | .str s => .ok s
  | .null => .ok old
  | _ => .error typeError

/-- Decode into an `int` or `int64`: an integer literal in the 64-bit range sets it,
`null` leaves it as it is. -/
def decodeInt (old : Int) : JSON → Except String Int
  | .num (some i) _ =>
    if -(2 ^ 63 : Int) ≤ i ∧ i < 2 ^ 63 then .ok i else .error typeError
  | .null => .ok old
  | _ => .error typeError

/-- Decode into a `float64`: a number literal with a finite value sets it, `null` leaves
it as it is. -/
def decodeFloat (old : Float64) : JSON → Except String Float64
  | .num _ (.fin neg mant exp) => .ok (.fin neg mant exp)
  | .null => .ok old
  | _ => .error typeError

/-- Decode the elements of an array into the elements of a `[]string`, each over the
element already at its index, if there is one (capacity is not modelled). -/
def decodeElems : List String → List JSON → Except String (List String)
  | _, [] => .ok []
  | old, x :: xs =>
    match decodeString (old.headD "") x, decodeElems old.tail xs with
    | .ok s, .ok rest => .ok (s :: rest)
    | _, _ => .error typeError

/-- Decode into a `[]string`: an array sets it, `null` makes it nil. -/
def decodeStrings (old : List String) : JSON → Except String (List String)
  | .arr xs => decodeElems old xs
  | .null => .ok []
  | _ => .error typeError

/-- One member of a JSON object decoded into `Request`. -/
def Request.setField (r : Request) (key : String) (v : JSON) : Except String Request :=
  match foldName key with
  | "type" => (decodeString r.Type_ v).map fun x => { r with Type_ := x }
  | "query" => (decodeString r.Query v).map fun x => { r with Query := x }
  | "language" => (decodeString r.Language v).map fun x => { r with Language := x }
  | "unit" => (decodeString r.Unit v).map fun x => { r with Unit := x }
  | _ => .ok r

/-- Decode into a struct `Request`: the members of an object in order, nothing for
`null`. -/
def decodeRequest (old : Request) : JSON → Except String Request
  | .obj ms => ms.foldlM (fun r m => r.setField m.1 m.2) old
  | .null => .ok old
  | _ => .error typeError

/-- One member of a JSON object decoded into `Location`. -/
def Location.setField (r : Location) (key : String) (v : JSON) : Except String Location :=
  match foldName key with
  | "name" => (decodeString r.Name v).map fun x => { r with Name := x }
  | "country" => (decodeString r.Country v).map fun x => { r with Country := x }
  | "region" => (decodeString r.Region v).map fun x => { r with Region := x }
  | "lat" => (decodeString r.Lat v).map fun x => { r with Lat := x }
  | "lon" => (decodeString r.Lon v).map fun x => { r with Lon := x }
  | "timezone_id" => (decodeString r.TimezoneID v).map fun x => { r with TimezoneID := x }
  | "localtime" => (decodeString r.Localtime v).map fun x => { r with Localtime := x }
  | "localtime_epoch" =>
    (decodeInt r.LocaltimeEpoch v).map fun x => { r with LocaltimeEpoch := x }
  | "utc_offset" => (decodeString r.UTCOffset v).map fun x => { r with UTCOffset := x }
  | _ => .ok r

/-- Decode into a struct `Location`. -/
def decodeLocation (old : Location) : JSON → Except String Location
  | .obj ms => ms.foldlM (fun r m => r.setField m.1 m.2) old
  | .null => .ok old
  | _ => .error typeError

/-- One member of a JSON object decoded into `Astro`. -/
def Astro.setField (r : Astro) (key : String) (v : JSON) : Except String Astro :=
  match foldName key with
  | "sunrise" => (decodeString r.Sunrise v).map fun x => { r with Sunrise := x }
  | "sunset" => (decodeString r.Sunset v).map fun x => { r with Sunset := x }
  | "moonrise" => (decodeString r.Moonrise v).map fun x => { r with Moonrise := x }
  | "moonset" => (decodeString r.Moonset v).map fun x => { r with Moonset := x }
  | "moon_phase" => (decodeString r.MoonPhase v).map fun x => { r with MoonPhase := x }
  | "moon_illumination" =>
    (decodeInt r.MoonIllumination v).map fun x => { r with MoonIllumination := x }
  | _ => .ok r

/-- Decode into a struct `Astro`. -/
def decodeAstro (old : Astro) : JSON → Except String Astro
  | .obj ms => ms.foldlM (fun r m => r.setField m.1 m.2) old
  | .null => .ok old
  | _ => .error typeError

/-- One member of a JSON object decoded into `Current`. -/
def Current.setField (r : Current) (key : String) (v : JSON) : Except String Current :=
  match foldName key with
  | "observation_time" =>
    (decodeString r.ObservationTime v).map fun x => { r with ObservationTime := x }
  | "temperature" => (decodeInt r.Temperature v).map fun x => { r with Temperature := x }
  | "weather_code" => (decodeInt r.WeatherCode v).map fun x => { r with WeatherCode := x }
  | "weather_icons" =>
    (decodeStrings r.WeatherIcons v).map fun x => { r with WeatherIcons := x }
  | "weather_descriptions" =>
    (decodeStrings r.WeatherDescriptions v).map fun x => { r with WeatherDescriptions := x }
  | "astro" => (decodeAstro r.Astro v).map fun x => { r with Astro := x }
  | "wind_speed" => (decodeInt r.WindSpeed v).map fun x => { r with WindSpeed := x }
  | "wind_degree" => (decodeInt r.WindDegree v).map fun x => { r with WindDegree := x }
  | "wind_dir" => (decodeString r.WindDir v).map fun x => { r with WindDir := x }
  | "pressure" => (decodeInt r.Pressure v).map fun x => { r with Pressure := x }
  | "precip" => (decodeFloat r.Precip v).map fun x => { r with Precip := x }
  | "humidity" => (decodeInt r.Humidity v).map fun x => { r with Humidity := x }
  | "cloudcover" => (decodeInt r.Cloudcover v).map fun x => { r with Cloudcover := x }
  | "feelslike" => (decodeInt r.Feelslike v).map fun x => { r with Feelslike := x }
  | "uv_index" => (decodeInt r.UVIndex v).map fun x => { r with UVIndex := x }
  | "visibility" => (decodeInt r.Visibility v).map fun x => { r with Visibility := x }
  | "is_day" => (decodeString r.IsDay v).map fun x => { r with IsDay := x }
  | _ => .ok r

/-- Decode into a struct `Current`. -/
def decodeCurrent (old : Current) : JSON → Except String Current
  | .obj ms => ms.foldlM (fun r m => r.setField m.1 m.2) old
  | .null => .ok old
  | _ => .error typeError

/-- One member of a JSON object decoded into `WeatherResponse`. -/
def WeatherResponse.setField (r : WeatherResponse) (key : String) (v : JSON) :
    Except String WeatherResponse :=
  match foldName key with
  | "request" => (decodeRequest r.Request v).map fun x => { r with Request := x }
  | "location" => (decodeLocation r.Location v).map fun x => { r with Location := x }
  | "current" => (decodeCurrent r.Current v).map fun x => { r with Current := x }
  | _ => .ok r

/-- Modelled from the spec: the decoding of a JSON value into a struct
`WeatherResponse`, which `encoding/json` derives from the field tags. An object is
decoded member by member, `null` changes nothing, any other value is an error. -/
def decodeWeatherResponse (old : WeatherResponse) : JSON → Except String WeatherResponse
  | .obj ms => ms.foldlM (fun r m => r.setField m.1 m.2) old
  | .null => .ok old
  | _ => .error typeError

/-- Modelled from the spec: `json.Unmarshal` is library code, absent from the sources.
The call `json.Unmarshal(data, &weather)` parses the text (`parse`, a parameter) and
decodes the value into `weather` by the rules of the section above. -/
def Unmarshal (parse : List UInt8 → Except String JSON) (data : List UInt8)
    (weather : WeatherResponse) : Except String WeatherResponse :=
  match parse data with
  | .error err => .error err
  | .ok v => decodeWeatherResponse weather v

/-- Zero value of `Request`. -/
def Request.zero : Request := ⟨"", "", "", ""⟩

/-- Zero value of `Location`. -/
def Location.zero : Location := ⟨"", "", "", "", "", "", "", 0, ""⟩

/-- Zero value of `Astro`. -/
def Astro.zero : Astro := ⟨"", "", "", "", "", 0⟩

/-- Zero value of `Current`. -/
def Current.zero : Current :=
  ⟨"", 0, 0, [], [], Astro.zero, 0, 0, "", 0, Float64.zero, 0, 0, 0, 0, 0, ""⟩

/-- Zero value of `WeatherResponse`: the value of `var weather WeatherResponse`. -/
def WeatherResponse.zero : WeatherResponse := ⟨Request.zero, Location.zero, Current.zero⟩

/-! ## The whole run (`ExampleRun`, lines 70 to 82) -/

/-- Function `ExampleRun`. `log.Fatal` ends the process without writing to standard
output. -/
def ExampleRun (net : String → Except String Response)
    (parse : List UInt8 → Except String JSON) (w : World) : Exit × World :=
  match GetInfoWeather net "ВАШ_КЛЮЧ" "Russia" "Samara" w with
  | (.error err, w) => (.fatal err, w)
  | (.ok data, w) =>
    match Unmarshal parse data WeatherResponse.zero with
    | .error err => (.fatal err, w)
    | .ok weather => PrintWeatherReport weather w

/-! ## Lines of text and the sections of the report -/

/-- The lines of a text: the pieces that end at a line feed, and the rest after the last
line feed when it is not empty. -/
def lines : List Char → List (List Char)
  | [] => []
  | c :: cs =>
    if c = '\n' then [] :: lines cs
    else
      match lines cs with
      | [] => [[c]]
      | l :: ls => (c :: l) :: ls

/-- The text made of the given lines, each ended by a line feed. -/
def unlines : List (List Char) → List Char
  | [] => []
  | l :: ls => l ++ '\n' :: unlines ls

/-- The last `n` lines of a text. -/
def lastLines (n : Nat) (text : List Char) : List (List Char) :=
  (lines text).drop ((lines text).length - n)

/-- The headers of the six labeled sections, in the order of the report. -/
def sectionHeaders : List (List Char) :=
  [ "1. Общая информация:".data,
    "2. Текущая погода:".data,
    "3. Ветер:".data,
    "4. Атмосферные условия:".data,
    "5. Астрономические данные:".data,
    "7. Дополнительные наблюдения:".data ]

/-- The headers of what follows the current weather: wind, atmosphere, astronomy,
additional observations and the advisory block. -/
def laterHeaders : List (List Char) :=
  [ "3. Ветер:".data,
    "4. Атмосферные условия:".data,
    "5. Астрономические данные:".data,
    "7. Дополнительные наблюдения:".data,
    "=== Выводы и рекомендации ===".data ]

/-- The advisory block: its header and the three fixed lines. -/
def advisoryLines : List (List Char) :=
  [ "=== Выводы и рекомендации ===".data,
    "- Погода прохладная, одевайтесь теплее.".data,
    "- Воздух чистый, можно планировать прогулки.".data,
    "- День длится примерно 12 часов, наслаждайтесь световым днём.".data ]

/-- The lines from the title to the feels-like line: everything written before the
first element of `WeatherDescriptions` is read. -/
def headLines (weather : WeatherResponse) : List (List Char) :=
  [ "=== Отчёт о погоде ===".data,
    [],
    "1. Общая информация:".data,
    "- Тип запроса: ".data ++ weather.Request.Type_.data,
    "- Местоположение: ".data ++ weather.Location.Name.data ++ ", ".data
      ++ weather.Location.Country.data,
    "- Координаты: Широта — ".data ++ weather.Location.Lat.data ++ ", Долгота — ".data
      ++ weather.Location.Lon.data,
    "- Временная зона: ".data ++ weather.Location.TimezoneID.data ++ " (UTC".data
      ++ weather.Location.UTCOffset.data ++ ")".data,
    "- Локальное время: ".data ++ weather.Location.Localtime.data,
    [],
    "2. Текущая погода:".data,
    "- Температура: ".data ++ fmtInt weather.Current.Temperature ++ "°C".data,
    "- Ощущается как: ".data ++ fmtInt weather.Current.Feelslike ++ "°C".data ]

/-- The line of the weather conditions. -/
def descriptionLine (description : String) : List Char :=
  "- Погодные условия: ".data ++ description.data

/-- The line of the weather icon. -/
def iconLine (icon : String) : List Char :=
  "- Иконка погоды: ".data ++ icon.data

/-- The lines from the end of the current weather to the end of the additional
observations. -/
def bodyLines (weather : WeatherResponse) : List (List Char) :=
  [ [],
    "3. Ветер:".data,
    "- Скорость ветра: ".data ++ fmtInt weather.Current.WindSpeed ++ " км/ч".data,
    "- Направление ветра: ".data ++ weather.Current.WindDir.data ++ " (".data
      ++ fmtInt weather.Current.WindDegree ++ "°)".data,
    [],
    "4. Атмосферные условия:".data,
    "- Давление: ".data ++ fmtInt weather.Current.Pressure ++ " мбар".data,
    "- Влажность: ".data ++ fmtInt weather.Current.Humidity ++ "%".data,
    "- Облачность: ".data ++ fmtInt weather.Current.Cloudcover ++ "%".data,
    "- Видимость: ".data ++ fmtInt weather.Current.Visibility ++ " км".data,
    "- Осадки: ".data ++ fmtFloat1 weather.Current.Precip ++ " мм".data,
    [],
    "5. Астрономические данные:".data,
    "- Восход солнца: ".data ++ weather.Current.Astro.Sunrise.data,
    "- Закат солнца: ".data ++ weather.Current.Astro.Sunset.data,
    "- Восход луны: ".data ++ weather.Current.Astro.Moonrise.data,
    "- Заход луны: ".data ++ weather.Current.Astro.Moonset.data,
    "- Фаза луны: ".data ++ weather.Current.Astro.MoonPhase.data,
    "- Освещённость луны: ".data ++ fmtInt weather.Current.Astro.MoonIllumination
      ++ "%".data,
    [],
    "7. Дополнительные наблюдения:".data,
    "- УФ-индекс: ".data ++ fmtInt weather.Current.UVIndex,
    "- День или ночь: ".data ++ weather.Current.IsDay.data,
    [] ]

/-- The lines of a complete report. -/
def reportLines (weather : WeatherResponse) (description icon : String) :
    List (List Char) :=
  headLines weather ++ descriptionLine description :: iconLine icon :: bodyLines weather
    ++ advisoryLines

/-- A string without line feed. -/
def oneLine (s : String) : Prop := '\n' ∉ s.data

instance (s : String) : Decidable (oneLine s) := by
  unfold oneLine; infer_instance

/-- None of the text fields written before the first element of `WeatherDescriptions`
is read holds a line feed. -/
def headOneLine (weather : WeatherResponse) : Prop :=
  oneLine weather.Request.Type_ ∧ oneLine weather.Location.Name ∧
  oneLine weather.Location.Country ∧ oneLine weather.Location.Lat ∧
  oneLine weather.Location.Lon ∧ oneLine weather.Location.TimezoneID ∧
  oneLine weather.Location.UTCOffset ∧ oneLine weather.Location.Localtime

instance (weather : WeatherResponse) : Decidable (headOneLine weather) := by
  unfold headOneLine; infer_instance

/-- None of the text fields that the report shows holds a line feed. -/
def fieldsOneLine (weather : WeatherResponse) : Prop :=
  headOneLine weather ∧
  oneLine (weather.Current.WeatherDescriptions.headD "") ∧
  oneLine (weather.Current.WeatherIcons.headD "") ∧
  oneLine weather.Current.WindDir ∧ oneLine weather.Current.Astro.Sunrise ∧
  oneLine weather.Current.Astro.Sunset ∧ oneLine weather.Current.Astro.Moonrise ∧
  oneLine weather.Current.Astro.Moonset ∧ oneLine weather.Current.Astro.MoonPhase ∧
  oneLine weather.Current.IsDay

instance (weather : WeatherResponse) : Decidable (fieldsOneLine weather) := by
  unfold fieldsOneLine; infer_instance

/-- The response with its two lists replaced. -/
def WeatherResponse.withLists (weather : WeatherResponse)
    (descriptions icons : List String) : WeatherResponse :=
  { weather with
    Current := { weather.Current with
      WeatherDescriptions := descriptions, WeatherIcons := icons } }

/-- The formatter with the text that follows it: `SprintfK format args k` is
`Sprintf format args ++ k`, in a form that computes with a symbolic operand. -/
def SprintfK : List Char → List Arg → List Char → List Char
  | [], _, k => k
  | '%' :: '%' :: rest, args, k => '%' :: SprintfK rest args k
  | '%' :: 's' :: rest, .str s :: args, k => s.data ++ SprintfK rest args k
  | '%' :: 'v' :: rest, .str s :: args, k => s.data ++ SprintfK rest args k
  | '%' :: 'd' :: rest, .int i :: args, k => fmtInt i ++ SprintfK rest args k
  | '%' :: '.' :: '1' :: 'f' :: rest, .float f :: args, k =>
    fmtFloat1 f ++ SprintfK rest args k
  | c :: rest, args, k => c :: SprintfK rest args k

/-! ## Concrete inputs -/

/-- A response with every field filled in. -/
def sampleWeather : WeatherResponse :=
  { Request := ⟨"City", "Samara, Russia", "en", "m"⟩,
    Location := ⟨"Samara", "Russia", "Samara", "53.200", "50.150", "Europe/Samara",
      "2024-05-01 12:00", 1714564800, "4.0"⟩,
    Current :=
      { ObservationTime := "08:00 AM", Temperature := -3, WeatherCode := 113,
        WeatherIcons := ["https://cdn.example/sunny.png"],
        WeatherDescriptions := ["Sunny"],
        Astro := ⟨"05:12 AM", "08:31 PM", "03:40 AM", "02:15 PM", "Waning Crescent", 42⟩,
        WindSpeed := 11, WindDegree := 250, WindDir := "WSW", Pressure := 1012,
        Precip := .fin false 1 (-2), Humidity := 47, Cloudcover := 0, Feelslike := -7,
        UVIndex := 5, Visibility := 10, IsDay := "yes" } }

/-- The sample response, its request type holding a line feed followed by the text of
the wind header. -/
def injectedWeather : WeatherResponse :=
  { sampleWeather with
    Request := { sampleWeather.Request with Type_ := "City\n3. Ветер:" } }

/-- The sample response with no description and no icon, its place name holding line
feeds followed by the text of a whole wind section. -/
def spoofedWeather : WeatherResponse :=
  { sampleWeather with
    Location := { sampleWeather.Location with
      Name := "Samara\n\n3. Ветер:\n- Скорость ветра: 11 км/ч\n- Направление ветра: WSW (250°)\n" },
    Current := { sampleWeather.Current with WeatherDescriptions := [], WeatherIcons := [] } }

/-- The URL as the specification writes it: the three arguments put in as they are. -/
def plainURL (key country region : String) : String :=
  "https://api.weatherstack.com/current?access_key=" ++ key ++ "&query=" ++ country
    ++ "," ++ region

/-- The number of bytes that the one `Read` call of `GetInfoWeather` delivers. -/
def delivered (resp : Response) : Nat :=
  (resp.Body.Read (List.replicate 1014 0)).2.1

/-- The network that answers every request with the same response. -/
def always (resp : Response) : String → Except String Response :=
  fun _ => .ok resp

/-- The answers of a network with the status code of every response replaced. -/
def withStatus (code : Int) (net : String → Except String Response) :
    String → Except String Response :=
  fun url => (net url).map fun resp => { resp with StatusCode := code }

/-- A response with status 200 whose two bytes arrive in the first read together with
the end of the stream. -/
def shortResponse : Response := ⟨200, ⟨[123, 125], 2, some "EOF"⟩⟩

/-- A response with status 200 and a body of 5000 bytes, all of them available to the
first read, which reports no error. -/
def largeResponse : Response := ⟨200, ⟨List.replicate 5000 32, 5000, none⟩⟩

/-- A response with status 200 and a body of three bytes, read without error. -/
def smallResponse : Response := ⟨200, ⟨[123, 32, 125], 3, none⟩⟩

/-! ## Declarative reading of a JSON document

What the specification says of the decoder: a field takes the value of the member that
its key selects, and keeps the value it has (the zero value, in `ExampleRun`) when the
document has no such member. The definitions of this section read a member list in that
way, field by field; none of them uses a definition of the decoder above, which walks
the members in order and is compared with them. -/

/-- A character of a key and a character of a tag that are the same letter up to case:
equal, or an upper-case letter and its lower-case form, or the Kelvin sign and `k`, or
the long s and `s`. -/
def sameLetter (c t : Char) : Bool :=
  c = t || (c.isUpper && c.toLower = t) || (c = Char.ofNat 0x212A && t = 'k')
    || (c = Char.ofNat 0x017F && t = 's')

/-- A key and a tag of the same length with the same letters up to case. -/
def sameName : List Char → List Char → Bool
  | [], [] => true
  | c :: cs, t :: ts => sameLetter c t && sameName cs ts
  | _, _ => false

/-- The key selects the field with that tag. -/
def selects (key tag : String) : Bool := sameName key.data tag.data

/-- The values of the members that a tag selects, in the order of the document. -/
def selected (tag : String) (ms : List (String × JSON)) : List JSON :=
  (ms.filter fun m => selects m.1 tag).map fun m => m.2

/-- The value of a field after a document: the old value when no member selects its
tag; otherwise each selected member in turn over the value before (`over`), so that of
several members with the same key the last one decides. -/
def fieldValue {α : Type} (over : α → JSON → α) (old : α) (tag : String)
    (ms : List (String × JSON)) : α :=
  (selected tag ms).foldl over old

/-- A string field over a member: the string of the member. -/
def textOver (old : String) : JSON → String
  | .str s => s
  | _ => old

/-- An integer field over a member: the integer of the member. -/
def intOver (old : Int) : JSON → Int
  | .num (some i) _ => i
  | _ => old

/-- A float field over a member: the number of the member. -/
def floatOver (old : Float64) : JSON → Float64
  | .num _ f => f
  | _ => old

/-- A list field over a member: the strings of the array of the member, no element for
`null`. -/
def listOver (old : List String) : JSON → List String
  | .arr xs => xs.map (textOver "")
  | .null => []
  | _ => old

/-- The struct `Request` read from the members of an object. -/
def readRequest (old : Request) (ms : List (String × JSON)) : Request :=
  { Type_ := fieldValue textOver old.Type_ "type" ms,
    Query := fieldValue textOver old.Query "query" ms,
    Language := fieldValue textOver old.Language "language" ms,
    Unit := fieldValue textOver old.Unit "unit" ms }

/-- The struct `Location` read from the members of an object. -/
def readLocation (old : Location) (ms : List (String × JSON)) : Location :=
  { Name := fieldValue textOver old.Name "name" ms,
    Country := fieldValue textOver old.Country "country" ms,
    Region := fieldValue textOver old.Region "region" ms,
    Lat := fieldValue textOver old.Lat "lat" ms,
    Lon := fieldValue textOver old.Lon "lon" ms,
    TimezoneID := fieldValue textOver old.TimezoneID "timezone_id" ms,
    Localtime := fieldValue textOver old.Localtime "localtime" ms,
    LocaltimeEpoch := fieldValue intOver old.LocaltimeEpoch "localtime_epoch" ms,
    UTCOffset := fieldValue textOver old.UTCOffset "utc_offset" ms }

/-- The struct `Astro` read from the members of an object. -/
def readAstro (old : Astro) (ms : List (String × JSON)) : Astro :=
  { Sunrise := fieldValue textOver old.Sunrise "sunrise" ms,
    Sunset := fieldValue textOver old.Sunset "sunset" ms,
    Moonrise := fieldValue textOver old.Moonrise "moonrise" ms,
    Moonset := fieldValue textOver old.Moonset "moonset" ms,
    MoonPhase := fieldValue textOver old.MoonPhase "moon_phase" ms,
    MoonIllumination := fieldValue intOver old.MoonIllumination "moon_illumination" ms }

/-- A field of type `Astro` over a member: read from the object of the member. -/
def astroOver (old : Astro) : JSON → Astro
  | .obj ms => readAstro old ms
  | _ => old

/-- The struct `Current` read from the members of an object. -/
def readCurrent (old : Current) (ms : List (String × JSON)) : Current :=
  { ObservationTime := fieldValue textOver old.ObservationTime "observation_time" ms,
    Temperature := fieldValue intOver old.Temperature "temperature" ms,
    WeatherCode := fieldValue intOver old.WeatherCode "weather_code" ms,
    WeatherIcons := fieldValue listOver old.WeatherIcons "weather_icons" ms,
    WeatherDescriptions :=
      fieldValue listOver old.WeatherDescriptions "weather_descriptions" ms,
    Astro := fieldValue astroOver old.Astro "astro" ms,
    WindSpeed := fieldValue intOver old.WindSpeed "wind_speed" ms,
    WindDegree := fieldValue intOver old.WindDegree "wind_degree" ms,
    WindDir := fieldValue textOver old.WindDir "wind_dir" ms,
    Pressure := fieldValue intOver old.Pressure "pressure" ms,
    Precip := fieldValue floatOver old.Precip "precip" ms,
    Humidity := fieldValue intOver old.Humidity "humidity" ms,
    Cloudcover := fieldValue intOver old.Cloudcover "cloudcover" ms,
    Feelslike := fieldValue intOver old.Feelslike "feelslike" ms,
    UVIndex := fieldValue intOver old.UVIndex "uv_index" ms,
    Visibility := fieldValue intOver old.Visibility "visibility" ms,
    IsDay := fieldValue textOver old.IsDay "is_day" ms }

/-- A field of type `Request` over a member. -/
def requestOver (old : Request) : JSON → Request
  | .obj ms => readRequest old ms
  | _ => old

/-- A field of type `Location` over a member. -/
def locationOver (old : Location) : JSON → Location
  | .obj ms => readLocation old ms
  | _ => old

/-- A field of type `Current` over a member. -/
def currentOver (old : Current) : JSON → Current
  | .obj ms => readCurrent old ms
  | _ => old

/-- The struct `WeatherResponse` read from the members of an object. -/
def readWeatherResponse (old : WeatherResponse) (ms : List (String × JSON)) :
    WeatherResponse :=
  { Request := fieldValue requestOver old.Request "request" ms,
    Location := fieldValue locationOver old.Location "location" ms,
    Current := fieldValue currentOver old.Current "current" ms }

/-- The response of the empty document: empty text, 0, 0.0 and empty lists. -/
def emptyWeather : WeatherResponse :=
  { Request := { Type_ := "", Query := "", Language := "", Unit := "" },
    Location :=
      { Name := "", Country := "", Region := "", Lat := "", Lon := "", TimezoneID := "",
        Localtime := "", LocaltimeEpoch := 0, UTCOffset := "" },
    Current :=
      { ObservationTime := "", Temperature := 0, WeatherCode := 0, WeatherIcons := [],
        WeatherDescriptions := [],
        Astro :=
          { Sunrise := "", Sunset := "", Moonrise := "", Moonset := "", MoonPhase := "",
            MoonIllumination := 0 },
        WindSpeed := 0, WindDegree := 0, WindDir := "", Pressure := 0,
        Precip := .fin false 0 0, Humidity := 0, Cloudcover := 0, Feelslike := 0,
        UVIndex := 0, Visibility := 0, IsDay := "" } }

/-- A response over a document: read from the members of an object. -/
def weatherOver (old : WeatherResponse) : JSON → WeatherResponse
  | .obj ms => readWeatherResponse old ms
  | _ => old

/-- The response that a document stands for: a field with a member has the value of
the member, every other field the value it has in `emptyWeather`. -/
def documentValue (v : JSON) : WeatherResponse :=
  weatherOver emptyWeather v

/-- A JSON string. -/
def isText : JSON → Bool
  | .str _ => true
  | _ => false

/-- A value for a string field: a string or `null`. -/
def okText : JSON → Bool
  | .str _ => true
  | .null => true
  | _ => false

/-- A value for an integer field: an integer literal in the 64-bit range, or `null`. -/
def okInt : JSON → Bool
  | .num (some i) _ => decide (-9223372036854775808 ≤ i ∧ i ≤ 9223372036854775807)
  | .null => true
  | _ => false

/-- A value for a float field: a number literal with a finite value, or `null`. -/
def okFloat : JSON → Bool
  | .num _ (.fin _ _ _) => true
  | .null => true
  | _ => false

/-- A value for a list field: an array of strings, or `null`. -/
def okList : JSON → Bool
  | .arr xs => xs.all isText
  | .null => true
  | _ => false

/-- A member fits a schema (the tags of a struct, each with the values its field
takes): its value is one for every field that its key selects. A member whose key
selects no field fits. -/
def okMember (fields : List (String × (JSON → Bool))) (m : String × JSON) : Bool :=
  fields.all fun f => !selects m.1 f.1 || f.2 m.2

/-- An object fits a schema: each of its members does. Fields may be left out, keys may
come in any order and more than once. -/
def fits (fields : List (String × (JSON → Bool))) (ms : List (String × JSON)) : Bool :=
  ms.all (okMember fields)

/-- A value for a struct field: an object that fits the schema of the struct, or
`null`. -/
def okObject (fields : List (String × (JSON → Bool))) : JSON → Bool
  | .obj ms => fits fields ms
  | .null => true
  | _ => false

/-- The schema of `Request`. -/
def requestFields : List (String × (JSON → Bool)) :=
  [("type", okText), ("query", okText), ("language", okText), ("unit", okText)]

/-- The schema of `Location`. -/
def locationFields : List (String × (JSON → Bool)) :=
  [ ("name", okText), ("country", okText), ("region", okText), ("lat", okText),
    ("lon", okText), ("timezone_id", okText), ("localtime", okText),
    ("localtime_epoch", okInt), ("utc_offset", okText) ]

/-- The schema of `Astro`. -/
def astroFields : List (String × (JSON → Bool)) :=
  [ ("sunrise", okText), ("sunset", okText), ("moonrise", okText), ("moonset", okText),
    ("moon_phase", okText), ("moon_illumination", okInt) ]

/-- The schema of `Current`. -/
def currentFields : List (String × (JSON → Bool)) :=
  [ ("observation_time", okText), ("temperature", okInt), ("weather_code", okInt),
    ("weather_icons", okList), ("weather_descriptions", okList),
    ("astro", okObject astroFields), ("wind_speed", okInt), ("wind_degree", okInt),
    ("wind_dir", okText), ("pressure", okInt), ("precip", okFloat), ("humidity", okInt),
    ("cloudcover", okInt), ("feelslike", okInt), ("uv_index", okInt),
    ("visibility", okInt), ("is_day", okText) ]

/-- The schema of `WeatherResponse`. -/
def weatherFields : List (String × (JSON → Bool)) :=
  [ ("request", okObject requestFields), ("location", okObject locationFields),
    ("current", okObject currentFields) ]

/-- A character that is not an upper-case letter, the Kelvin sign or the long s. The
characters of the tags are such. -/
def plainLetter (t : Char) : Prop :=
  t.isUpper = false ∧ t ≠ Char.ofNat 0x212A ∧ t ≠ Char.ofNat 0x017F

instance (t : Char) : Decidable (plainLetter t) := by
  unfold plainLetter; infer_instance

/-- A document that leaves out the request, most of the location and of the current
weather; it has keys in upper case, a key twice, a `null`, an integer literal for the
precipitation and members that the schema does not know. -/
def partialDocument : List (String × JSON) :=
  [ ("location", .obj
      [ ("name", .str "Samara"),
        ("localtime_epoch", .num (some 1714564800) (.fin false 1714564800 0)),
        ("NAME", .str "Moscow") ]),
    ("Current", .obj
      [ ("temperature", .num (some (-3)) (.fin true 3 0)),
        ("weather_descriptions", .arr [.str "Sunny", .str "Clear"]),
        ("astro", .obj [("Sunrise", .str "05:12 AM"), ("moon_phase", .null)]),
        ("precip", .num (some 3) (.fin false 3 0)),
        ("wind_ſpeed", .num (some 11) (.fin false 11 0)),
        ("is_day", .null),
        ("humidity", .num (some 47) (.fin false 47 0)),
        ("air_quality", .obj [("co", .str "250")]) ]),
    ("forecast", .arr []) ]

/-- What decoding `partialDocument` gives. -/
def partialWeather : WeatherResponse :=
  { Request := ⟨"", "", "", ""⟩,
    Location := ⟨"Moscow", "", "", "", "", "", "", 1714564800, ""⟩,
    Current :=
      { ObservationTime := "", Temperature := -3, WeatherCode := 0, WeatherIcons := [],
        WeatherDescriptions := ["Sunny", "Clear"],
        Astro := ⟨"05:12 AM", "", "", "", "", 0⟩,
        WindSpeed := 11, WindDegree := 0, WindDir := "", Pressure := 0,
        Precip := .fin false 3 0, Humidity := 47, Cloudcover := 0, Feelslike := 0,
        UVIndex := 0, Visibility := 0, IsDay := "" } }

/-! ## Lemmas: formatting and the text of the report -/

theorem Sprintf_append (f : List Char) (a : List Arg) (k : List Char) :
    Sprintf f a ++ k = SprintfK f a k := by
  induction f, a using Sprintf.induct with
  | case1 a => simp [Sprintf, SprintfK]
  | case2 rest args ih => simp [Sprintf, SprintfK, ih]
  | case3 rest s args ih => simp [Sprintf, SprintfK, ih]
  | case4 rest s args ih => simp [Sprintf, SprintfK, ih]
  | case5 rest s args ih => simp [Sprintf, SprintfK, ih]
  | case6 rest s args ih => simp [Sprintf, SprintfK, ih]
  | case7 c rest args h1 h2 h3 h4 h5 ih =>
    rw [Sprintf.eq_7 _ _ _ h1 h2 h3 h4 h5, SprintfK.eq_7 _ _ _ _ h1 h2 h3 h4 h5, ← ih]
    rfl

/-- The formatting of integers and floats on some values. -/
theorem fmt_values :
    fmtInt 0 = "0".data ∧ fmtInt 1012 = "1012".data ∧ fmtInt (-12) = "-12".data ∧
    fmtFloat1 (.fin false 0 0) = "0.0".data ∧ fmtFloat1 (.fin true 0 0) = "-0.0".data ∧
    fmtFloat1 (.fin false 1 (-2)) = "0.2".data ∧ fmtFloat1 (.fin false 3 (-2)) = "0.8".data ∧
    fmtFloat1 (.fin true 3 (-5)) = "-0.1".data ∧ fmtFloat1 (.fin false 3 4) = "48.0".data ∧
    fmtFloat1 (.fin false 3602879701896397 (-56)) = "0.1".data ∧
    fmtFloat1 (.fin false 5 (-1)) = "2.5".data ∧ fmtFloat1 .nan = "NaN".data ∧
    fmtFloat1 (.inf false) = "+Inf".data ∧ fmtFloat1 (.inf true) = "-Inf".data := by
  decide

theorem write_write (w : World) (a b : List Char) :
    (w.write a).write b = w.write (a ++ b) := by
  simp [World.write]

theorem unlines_append (xs ys : List (List Char)) :
    unlines (xs ++ ys) = unlines xs ++ unlines ys := by
  induction xs with
  | nil => rfl
  | cons l xs ih => simp [unlines, ih]

set_option maxRecDepth 100000 in
/-- With no description the report stops after the feels-like line. -/
theorem report_without_description (weather : WeatherResponse) (w : World)
    (h : weather.Current.WeatherDescriptions = []) :
    PrintWeatherReport weather w = (.panicked, w.write (unlines (headLines weather))) := by
  simp only [PrintWeatherReport, h, Println, Printf, write_write, List.append_assoc,
    List.getElem?_nil]
  simp only [Sprintf_append]
  simp only [unlines, headLines, List.append_assoc]
  rfl

set_option maxRecDepth 100000 in
/-- With a description and no icon the report stops after the line of the conditions. -/
theorem report_without_icon (weather : WeatherResponse) (w : World) (d : String)
    (ds : List String) (hd : weather.Current.WeatherDescriptions = d :: ds)
    (hi : weather.Current.WeatherIcons = []) :
    PrintWeatherReport weather w =
      (.panicked, w.write (unlines (headLines weather ++ [descriptionLine d]))) := by
  simp only [PrintWeatherReport, hd, hi, Println, Printf, write_write, List.append_assoc,
    List.getElem?_nil, List.getElem?_cons_zero]
  simp only [Sprintf_append]
  simp only [unlines, headLines, descriptionLine, List.append_assoc, List.cons_append,
    List.nil_append]
  rfl

set_option maxRecDepth 100000 in
/-- With a description and an icon the report is complete. -/
theorem report_complete (weather : WeatherResponse) (w : World) (d i : String)
    (ds is : List String) (hd : weather.Current.WeatherDescriptions = d :: ds)
    (hi : weather.Current.WeatherIcons = i :: is) :
    PrintWeatherReport weather w =
      (.returned, w.write (unlines (reportLines weather d i))) := by
  simp only [PrintWeatherReport, hd, hi, Println, Printf, write_write, List.append_assoc,
    List.getElem?_cons_zero]
  simp only [Sprintf_append]
  simp only [unlines, reportLines, headLines, descriptionLine, iconLine, bodyLines,
    advisoryLines, List.append_assoc, List.cons_append, List.nil_append]
  rfl

theorem lines_line (l rest : List Char) (h : '\n' ∉ l) :
    lines (l ++ '\n' :: rest) = l :: lines rest := by
  induction l with
  | nil => simp [lines]
  | cons c l ih =>
    have hc : c ≠ '\n' := fun e => h (by simp [e])
    have hl : '\n' ∉ l := fun e => h (by simp [e])
    simp [lines, hc, ih hl]

theorem lines_unlines (ls : List (List Char)) (h : ∀ l ∈ ls, '\n' ∉ l) :
    lines (unlines ls) = ls := by
  induction ls with
  | nil => rfl
  | cons l ls ih =>
    have h1 : '\n' ∉ l := h l (by simp)
    have h2 : ∀ x ∈ ls, '\n' ∉ x := fun x hx => h x (by simp [hx])
    simp [unlines, lines_line _ _ h1, ih h2]

theorem lines_feed_ne_nil (a b : List Char) : lines (a ++ '\n' :: b) ≠ [] := by
  induction a with
  | nil => simp [lines]
  | cons c a ih =>
    by_cases hc : c = '\n'
    · simp [lines, hc]
    · cases hl : lines (a ++ '\n' :: b) with
      | nil => exact absurd hl ih
      | cons l ls => simp [lines, hc, hl]

theorem lines_append_feed (a b : List Char) :
    lines (a ++ '\n' :: b) = lines (a ++ ['\n']) ++ lines b := by
  induction a with
  | nil => simp [lines]
  | cons c a ih =>
    by_cases hc : c = '\n'
    · simp [lines, hc, ih]
    · cases hl : lines (a ++ ['\n']) with
      | nil => exact absurd hl (lines_feed_ne_nil a [])
      | cons l ls =>
        rw [hl] at ih
        simp [lines, hc, ih, hl]

theorem lines_unlines_append (xs : List (List Char)) (t : List Char) :
    lines (unlines xs ++ t) = lines (unlines xs) ++ lines t := by
  induction xs with
  | nil => simp [unlines, lines]
  | cons l xs ih =>
    have e1 : unlines (l :: xs) ++ t = l ++ '\n' :: (unlines xs ++ t) := by
      simp [unlines]
    rw [e1, lines_append_feed, ih]
    show _ = lines (l ++ '\n' :: unlines xs) ++ lines t
    rw [lines_append_feed l (unlines xs), List.append_assoc]

theorem digitChar_ne_feed (d : Nat) (h : d < 10) : Nat.digitChar d ≠ '\n' := by
  interval_cases d <;> decide

theorem toDigitsCore_no_feed (fuel n : Nat) (ds : List Char) (h : '\n' ∉ ds) :
    '\n' ∉ Nat.toDigitsCore 10 fuel n ds := by
  induction fuel generalizing n ds with
  | zero => simpa [Nat.toDigitsCore] using h
  | succ fuel ih =>
    have hd : '\n' ∉ Nat.digitChar (n % 10) :: ds := by
      intro hm
      rcases List.mem_cons.mp hm with e | e
      · exact digitChar_ne_feed (n % 10) (Nat.mod_lt _ (by decide)) e.symm
      · exact h e
    simp only [Nat.toDigitsCore]
    split
    · exact hd
    · exact ih _ _ hd

theorem toDigits_no_feed (n : Nat) : '\n' ∉ Nat.toDigits 10 n :=
  toDigitsCore_no_feed _ _ _ (by simp)

theorem fmtInt_no_feed (i : Int) : '\n' ∉ fmtInt i := by
  cases i with
  | ofNat n => exact toDigits_no_feed n
  | negSucc n =>
    intro hm
    rcases List.mem_cons.mp hm with e | e
    · exact absurd e (by decide)
    · exact toDigits_no_feed _ e

theorem fmtFloat1_no_feed (f : Float64) : '\n' ∉ fmtFloat1 f := by
  cases f with
  | nan => decide
  | inf neg => cases neg <;> decide
  | fin neg mant exp =>
    have h1 := toDigits_no_feed (tenths mant exp / 10)
    have h2 := digitChar_ne_feed (tenths mant exp % 10) (Nat.mod_lt _ (by decide))
    cases neg <;> simp [fmtFloat1, h1, Ne.symm h2]

theorem headers_of_reportLines (weather : WeatherResponse) (d i : String) :
    (reportLines weather d i).filter (fun l => decide (l ∈ sectionHeaders))
      = sectionHeaders := by
  simp [reportLines, headLines, descriptionLine, iconLine, bodyLines, advisoryLines,
    List.filter, sectionHeaders]

theorem headLines_no_feed (weather : WeatherResponse) (h : headOneLine weather) :
    ∀ l ∈ headLines weather, '\n' ∉ l := by
  obtain ⟨h1, h2, h3, h4, h5, h6, h7, h8⟩ := h
  simp only [oneLine] at h1 h2 h3 h4 h5 h6 h7 h8
  simp [headLines, fmtInt_no_feed, h1, h2, h3, h4, h5, h6, h7, h8]

theorem reportLines_no_feed (weather : WeatherResponse) (d i : String)
    (ds is : List String) (hd : weather.Current.WeatherDescriptions = d :: ds)
    (hi : weather.Current.WeatherIcons = i :: is) (h : fieldsOneLine weather) :
    ∀ l ∈ reportLines weather d i, '\n' ∉ l := by
  obtain ⟨hh, h1, h2, h3, h4, h5, h6, h7, h8, h9⟩ := h
  rw [hd] at h1
  rw [hi] at h2
  simp only [oneLine, List.headD_cons] at h1 h2 h3 h4 h5 h6 h7 h8 h9
  have hhead := headLines_no_feed weather hh
  intro l hl
  simp only [reportLines, List.mem_append, List.mem_cons] at hl
  rcases hl with (hl | hl | hl | hl) | hl
  · exact hhead l hl
  · subst hl; simp [descriptionLine, h1]
  · subst hl; simp [iconLine, h2]
  · revert l
    simp [bodyLines, fmtInt_no_feed, fmtFloat1_no_feed, h3, h4, h5, h6, h7, h8, h9]
  · revert l
    simp [advisoryLines]

set_option maxRecDepth 1000000 in
/-- The report of the sample response, line by line. -/
theorem sample_report :
    PrintWeatherReport sampleWeather World.start
      = (.returned, ⟨unlines
          [ "=== Отчёт о погоде ===".data,
            "".data,
            "1. Общая информация:".data,
            "- Тип запроса: City".data,
            "- Местоположение: Samara, Russia".data,
            "- Координаты: Широта — 53.200, Долгота — 50.150".data,
            "- Временная зона: Europe/Samara (UTC4.0)".data,
            "- Локальное время: 2024-05-01 12:00".data,
            "".data,
            "2. Текущая погода:".data,
            "- Температура: -3°C".data,
            "- Ощущается как: -7°C".data,
            "- Погодные условия: Sunny".data,
            "- Иконка погоды: https://cdn.example/sunny.png".data,
            "".data,
            "3. Ветер:".data,
            "- Скорость ветра: 11 км/ч".data,
            "- Направление ветра: WSW (250°)".data,
            "".data,
            "4. Атмосферные условия:".data,
            "- Давление: 1012 мбар".data,
            "- Влажность: 47%".data,
            "- Облачность: 0%".data,
            "- Видимость: 10 км".data,
            "- Осадки: 0.2 мм".data,
            "".data,
            "5. Астрономические данные:".data,
            "- Восход солнца: 05:12 AM".data,
            "- Закат солнца: 08:31 PM".data,
            "- Восход луны: 03:40 AM".data,
            "- Заход луны: 02:15 PM".data,
            "- Фаза луны: Waning Crescent".data,
            "- Освещённость луны: 42%".data,
            "".data,
            "7. Дополнительные наблюдения:".data,
            "- УФ-индекс: 5".data,
            "- День или ночь: yes".data,
            "".data,
            "=== Выводы и рекомендации ===".data,
            "- Погода прохладная, одевайтесь теплее.".data,
            "- Воздух чистый, можно планировать прогулки.".data,
            "- День длится примерно 12 часов, наслаждайтесь световым днём.".data ],
          []⟩) := by
  decide

/-! ## Claims about the reporter -/

/-- C1 (amended). For every response with at least one description and one icon and no
line feed in the text fields shown, the report completes and the section headers among
the lines written are the six headers, each once and in the order of the report. -/
theorem report_has_six_sections (weather : WeatherResponse)
    (hd : weather.Current.WeatherDescriptions ≠ [])
    (hi : weather.Current.WeatherIcons ≠ [])
    (h : fieldsOneLine weather) :
    (PrintWeatherReport weather World.start).1 = .returned ∧
    (lines (PrintWeatherReport weather World.start).2.stdout).filter
        (fun l => decide (l ∈ sectionHeaders)) = sectionHeaders := by
  obtain ⟨d, ds, hd⟩ := List.exists_cons_of_ne_nil hd
  obtain ⟨i, is, hi⟩ := List.exists_cons_of_ne_nil hi
  rw [report_complete weather _ d i ds is hd hi]
  refine ⟨rfl, ?_⟩
  have e : (World.start.write (unlines (reportLines weather d i))).stdout
      = unlines (reportLines weather d i) := by
    simp [World.write, World.start]
  simp only [e]
  rw [lines_unlines _ (reportLines_no_feed weather d i ds is hd hi h)]
  exact headers_of_reportLines weather d i

/-- The sample response meets the conditions of `report_has_six_sections`. -/
theorem report_has_six_sections_witness :
    sampleWeather.Current.WeatherDescriptions ≠ [] ∧
    sampleWeather.Current.WeatherIcons ≠ [] ∧
    fieldsOneLine sampleWeather ∧
    (PrintWeatherReport sampleWeather World.start).1 = .returned ∧
    (lines (PrintWeatherReport sampleWeather World.start).2.stdout).filter
        (fun l => decide (l ∈ sectionHeaders)) = sectionHeaders :=
  ⟨by decide, by decide, by decide,
    report_has_six_sections sampleWeather (by decide) (by decide) (by decide)⟩

set_option maxRecDepth 1000000 in
/-- C1, counterexample. The request type of the response holds a line feed followed by
the text of the wind header: the report completes and the wind header is a line of it
twice. -/
theorem report_repeats_a_header :
    injectedWeather.Current.WeatherDescriptions ≠ [] ∧
    injectedWeather.Current.WeatherIcons ≠ [] ∧
    (PrintWeatherReport injectedWeather World.start).1 = .returned ∧
    (lines (PrintWeatherReport injectedWeather World.start).2.stdout).count
        "3. Ветер:".data = 2 ∧
    (lines (PrintWeatherReport injectedWeather World.start).2.stdout).filter
        (fun l => decide (l ∈ sectionHeaders)) ≠ sectionHeaders := by
  decide

/-- C2. The report panics (index out of range) exactly when there is no description or
no icon, and returns exactly when there is one of each; only element 0 of each list is
read: the run is the same whatever follows the first elements. -/
theorem report_panics_iff_empty_list (weather : WeatherResponse) (w : World) :
    ((PrintWeatherReport weather w).1 = .panicked ↔
      weather.Current.WeatherDescriptions = [] ∨ weather.Current.WeatherIcons = []) ∧
    ((PrintWeatherReport weather w).1 = .returned ↔
      weather.Current.WeatherDescriptions ≠ [] ∧ weather.Current.WeatherIcons ≠ []) ∧
    (∀ (d i : String) (ds is : List String),
      PrintWeatherReport (weather.withLists (d :: ds) (i :: is)) w
        = PrintWeatherReport (weather.withLists [d] [i]) w) := by
  refine ⟨?_, ?_, ?_⟩
  · cases hd : weather.Current.WeatherDescriptions with
    | nil => simp [report_without_description weather w hd]
    | cons d ds =>
      cases hi : weather.Current.WeatherIcons with
      | nil => simp [report_without_icon weather w d ds hd hi]
      | cons i is => simp [report_complete weather w d i ds is hd hi]
  · cases hd : weather.Current.WeatherDescriptions with
    | nil => simp [report_without_description weather w hd]
    | cons d ds =>
      cases hi : weather.Current.WeatherIcons with
      | nil => simp [report_without_icon weather w d ds hd hi]
      | cons i is => simp [report_complete weather w d i ds is hd hi]
  · intro d i ds is
    rw [report_complete (weather.withLists (d :: ds) (i :: is)) w d i ds is rfl rfl,
      report_complete (weather.withLists [d] [i]) w d i [] [] rfl rfl]
    rfl

/-- C7. On any two responses for which the report completes, the last four lines
written are the same: the header of the advisory block and its three fixed lines. -/
theorem advisory_block_is_fixed (weather₁ weather₂ : WeatherResponse)
    (h₁ : (PrintWeatherReport weather₁ World.start).1 = .returned)
    (h₂ : (PrintWeatherReport weather₂ World.start).1 = .returned) :
    lastLines 4 (PrintWeatherReport weather₁ World.start).2.stdout
      = lastLines 4 (PrintWeatherReport weather₂ World.start).2.stdout ∧
    lastLines 4 (PrintWeatherReport weather₁ World.start).2.stdout = advisoryLines := by
  have key : ∀ weather : WeatherResponse,
      (PrintWeatherReport weather World.start).1 = .returned →
      lastLines 4 (PrintWeatherReport weather World.start).2.stdout = advisoryLines := by
    intro weather h
    cases hd : weather.Current.WeatherDescriptions with
    | nil => simp [report_without_description weather _ hd] at h
    | cons d ds =>
      cases hi : weather.Current.WeatherIcons with
      | nil => simp [report_without_icon weather _ d ds hd hi] at h
      | cons i is =>
        rw [report_complete weather _ d i ds is hd hi]
        have e : (World.start.write (unlines (reportLines weather d i))).stdout
            = unlines (headLines weather ++
                descriptionLine d :: iconLine i :: bodyLines weather)
              ++ unlines advisoryLines := by
          have e0 : reportLines weather d i = (headLines weather ++
              descriptionLine d :: iconLine i :: bodyLines weather) ++ advisoryLines := rfl
          rw [e0, unlines_append]
          simp [World.write, World.start]
        have ha : lines (unlines advisoryLines) = advisoryLines :=
          lines_unlines _ (by decide)
        simp only [e, lastLines, lines_unlines_append, ha]
        have hl : advisoryLines.length = 4 := rfl
        rw [List.length_append, hl, Nat.add_sub_cancel]
        exact List.drop_left _ _
  exact ⟨(key weather₁ h₁).trans (key weather₂ h₂).symm, key weather₁ h₁⟩

set_option maxRecDepth 1000000 in
/-- The report completes on the sample response and on the one with a line feed in its
request type; the last four lines are the same. -/
theorem advisory_block_is_fixed_witness :
    (PrintWeatherReport sampleWeather World.start).1 = .returned ∧
    (PrintWeatherReport injectedWeather World.start).1 = .returned ∧
    lastLines 4 (PrintWeatherReport sampleWeather World.start).2.stdout
      = lastLines 4 (PrintWeatherReport injectedWeather World.start).2.stdout ∧
    lastLines 4 (PrintWeatherReport sampleWeather World.start).2.stdout = advisoryLines :=
  ⟨by decide, by decide,
    advisory_block_is_fixed sampleWeather injectedWeather (by decide) (by decide)⟩

/-- C10 (amended). With no description the report panics after it has written exactly
the title, the general information, the header of the current weather and the
temperature and feels-like lines. That text is not empty and is a proper prefix of the
report of the same response with a description and an icon: what is missing is the rest
of the current weather, the wind, atmosphere, astronomy and additional-observation
sections and the advisory block. When none of the text fields written so far holds a
line feed, no line written is the header of one of those. -/
theorem report_fails_midway (weather : WeatherResponse)
    (h : weather.Current.WeatherDescriptions = []) :
    PrintWeatherReport weather World.start
      = (.panicked, ⟨unlines (headLines weather), []⟩) ∧
    unlines (headLines weather) ≠ [] ∧
    (∀ (d i : String) (ds is : List String),
      PrintWeatherReport (weather.withLists (d :: ds) (i :: is)) World.start
        = (.returned, ⟨unlines (headLines weather) ++
            unlines (descriptionLine d :: iconLine i :: bodyLines weather ++ advisoryLines),
            []⟩) ∧
      unlines (descriptionLine d :: iconLine i :: bodyLines weather ++ advisoryLines)
        ≠ []) ∧
    (headOneLine weather →
      ∀ l ∈ laterHeaders, l ∉ lines (PrintWeatherReport weather World.start).2.stdout) := by
  have e : PrintWeatherReport weather World.start
      = (.panicked, ⟨unlines (headLines weather), []⟩) := by
    rw [report_without_description weather _ h]
    simp [World.write, World.start]
  refine ⟨e, ?_, ?_, ?_⟩
  · simp [headLines, unlines]
  · intro d i ds is
    constructor
    · rw [report_complete (weather.withLists (d :: ds) (i :: is)) _ d i ds is rfl rfl]
      have e0 : reportLines (weather.withLists (d :: ds) (i :: is)) d i
          = headLines weather ++
            (descriptionLine d :: iconLine i :: bodyLines weather ++ advisoryLines) := by
        simp [reportLines, headLines, bodyLines, WeatherResponse.withLists]
      rw [e0, unlines_append]
      simp [World.write, World.start]
    · simp [unlines]
  · intro hh l hl
    rw [e]
    simp only [lines_unlines _ (headLines_no_feed weather hh)]
    revert l
    simp [laterHeaders, headLines]

/-- The sample response without description and icon: the report stops after the
feels-like line and shows no later header. -/
theorem report_fails_midway_witness :
    (sampleWeather.withLists [] []).Current.WeatherDescriptions = [] ∧
    headOneLine (sampleWeather.withLists [] []) ∧
    PrintWeatherReport (sampleWeather.withLists [] []) World.start
      = (.panicked, ⟨unlines (headLines (sampleWeather.withLists [] [])), []⟩) ∧
    (∀ l ∈ laterHeaders,
      l ∉ lines (PrintWeatherReport (sampleWeather.withLists [] []) World.start).2.stdout) :=
  ⟨rfl, by decide, (report_fails_midway (sampleWeather.withLists [] []) rfl).1,
    (report_fails_midway (sampleWeather.withLists [] []) rfl).2.2.2 (by decide)⟩

set_option maxRecDepth 1000000 in
/-- C10, counterexample. The response has no description and its place name holds line
feeds followed by the text of a wind section: the report panics, and the header and the
two lines of a wind section are among the lines written before. -/
theorem report_prefix_shows_a_wind_section :
    spoofedWeather.Current.WeatherDescriptions = [] ∧
    (PrintWeatherReport spoofedWeather World.start).1 = .panicked ∧
    "3. Ветер:".data ∈ laterHeaders ∧
    ((lines (PrintWeatherReport spoofedWeather World.start).2.stdout).drop 6).take 3 =
      [ "3. Ветер:".data,
        "- Скорость ветра: 11 км/ч".data,
        "- Направление ветра: WSW (250°)".data ] ∧
    ¬ (∀ l ∈ laterHeaders,
        l ∉ lines (PrintWeatherReport spoofedWeather World.start).2.stdout) := by
  decide

/-! ## Lemmas: the fetcher -/

theorem url_eq (key country region : String) :
    String.mk (Sprintf "https://api.weatherstack.com/current?access_key=%v&query=%v,%v".data
      [.str key, .str country, .str region]) = plainURL key country region := by
  have e : Sprintf "https://api.weatherstack.com/current?access_key=%v&query=%v,%v".data
      [.str key, .str country, .str region]
      = "https://api.weatherstack.com/current?access_key=".data ++ (key.data ++
          ("&query=".data ++ (country.data ++ (",".data ++ (region.data ++ []))))) := rfl
  apply String.ext
  rw [e]
  simp only [plainURL, String.data_append, List.append_assoc, List.append_nil]

theorem Read_buffer (b : Body) :
    b.Read (List.replicate 1014 0)
      = (b.content.take (min 1014 (min b.avail b.content.length))
          ++ (List.replicate 1014 (0 : UInt8)).drop (min 1014 (min b.avail b.content.length)),
         min 1014 (min b.avail b.content.length), b.readErr) := by
  simp only [Body.Read, List.length_replicate]

theorem delivered_eq (resp : Response) :
    delivered resp = min 1014 (min resp.Body.avail resp.Body.content.length) := by
  simp only [delivered, Read_buffer]

theorem GetInfoWeather_error (net : String → Except String Response)
    (key country region : String) (w : World) (err : String)
    (h : net (plainURL key country region) = .error err) :
    GetInfoWeather net key country region w
      = (.error "error get pages",
          Println err { w with requests := w.requests ++ [plainURL key country region] }) := by
  unfold GetInfoWeather
  rw [url_eq]
  simp only [h]

theorem GetInfoWeather_ok (net : String → Except String Response)
    (key country region : String) (w : World) (resp : Response)
    (h : net (plainURL key country region) = .ok resp) :
    GetInfoWeather net key country region w
      = (if delivered resp = 0 ∨ resp.Body.readErr ≠ none
          then .error "error return get pages"
          else .ok (resp.Body.content.take (delivered resp)),
          { w with requests := w.requests ++ [plainURL key country region] }) := by
  have hn : delivered resp ≤ resp.Body.content.length := by
    rw [delivered_eq]; omega
  have ht : (resp.Body.content.take (delivered resp)
      ++ (List.replicate 1014 (0 : UInt8)).drop (delivered resp)).take (delivered resp)
      = resp.Body.content.take (delivered resp) := by
    rw [List.take_append_of_le_length (by rw [List.length_take]; omega)]
    rw [List.take_take, Nat.min_self]
  unfold GetInfoWeather
  rw [url_eq]
  simp only [h, Read_buffer, ← delivered_eq]
  by_cases hc : delivered resp = 0 ∨ resp.Body.readErr ≠ none
  · simp only [hc, if_true]
  · simp only [hc, if_false, ht]

/-! ## Claims about the fetcher -/

/-- C5. The one URL that `GetInfoWeather` requests is the fixed prefix, the key, the text
`&query=`, the country, a comma and the region, each argument as it is; the answer of
the network at that URL alone decides the run. -/
theorem GetInfoWeather_requests_plain_url (net : String → Except String Response)
    (key country region : String) (w : World) :
    (GetInfoWeather net key country region w).2.requests
      = w.requests ++ ["https://api.weatherstack.com/current?access_key=" ++ key
          ++ "&query=" ++ country ++ "," ++ region] ∧
    (∀ other : String → Except String Response,
      other (plainURL key country region) = net (plainURL key country region) →
      GetInfoWeather other key country region w = GetInfoWeather net key country region w) := by
  constructor
  · cases h : net (plainURL key country region) with
    | error err =>
      rw [GetInfoWeather_error net key country region w err h]
      rfl
    | ok resp =>
      rw [GetInfoWeather_ok net key country region w resp h]
      rfl
  · intro other ho
    cases h : net (plainURL key country region) with
    | error err =>
      rw [GetInfoWeather_error net key country region w err h,
        GetInfoWeather_error other key country region w err (ho.trans h)]
    | ok resp =>
      rw [GetInfoWeather_ok net key country region w resp h,
        GetInfoWeather_ok other key country region w resp (ho.trans h)]

/-- C3. `GetInfoWeather` returns an error (and so no bytes) exactly when the request
fails, or the one read delivers no byte, or that read reports an error. Otherwise it
returns the bytes that the read put at the front of the buffer: the first `n` bytes of
the body, `n` being the number delivered. A response with an empty body gives an
error. -/
theorem GetInfoWeather_error_iff (net : String → Except String Response)
    (key country region : String) (w : World) :
    ((∃ e, (GetInfoWeather net key country region w).1 = .error e) ↔
      ((∃ e, net (plainURL key country region) = .error e) ∨
        ∃ resp, net (plainURL key country region) = .ok resp ∧
          (delivered resp = 0 ∨ resp.Body.readErr ≠ none))) ∧
    (∀ resp, net (plainURL key country region) = .ok resp →
      ¬ (delivered resp = 0 ∨ resp.Body.readErr ≠ none) →
      (GetInfoWeather net key country region w).1
        = .ok ((resp.Body.Read (List.replicate 1014 0)).1.take (delivered resp)) ∧
      (resp.Body.Read (List.replicate 1014 0)).1.take (delivered resp)
        = resp.Body.content.take (delivered resp) ∧
      (resp.Body.content.take (delivered resp)).length = delivered resp) ∧
    (∀ resp, net (plainURL key country region) = .ok resp → resp.Body.content = [] →
      (GetInfoWeather net key country region w).1 = .error "error return get pages") := by
  have hlen : ∀ resp : Response, delivered resp ≤ resp.Body.content.length := by
    intro resp; rw [delivered_eq]; omega
  have htake : ∀ resp : Response,
      (resp.Body.Read (List.replicate 1014 0)).1.take (delivered resp)
        = resp.Body.content.take (delivered resp) := by
    intro resp
    rw [Read_buffer, ← delivered_eq]
    show (resp.Body.content.take (delivered resp) ++ _).take (delivered resp) = _
    rw [List.take_append_of_le_length (by rw [List.length_take]; have := hlen resp; omega)]
    rw [List.take_take, Nat.min_self]
  refine ⟨?_, ?_, ?_⟩
  · cases h : net (plainURL key country region) with
    | error err =>
      rw [GetInfoWeather_error net key country region w err h]
      simp
    | ok resp =>
      rw [GetInfoWeather_ok net key country region w resp h]
      by_cases hc : delivered resp = 0 ∨ resp.Body.readErr ≠ none
      · simp only [hc, if_true]
        constructor
        · intro _; exact Or.inr ⟨resp, rfl, hc⟩
        · intro _; exact ⟨_, rfl⟩
      · simp only [hc, if_false]
        constructor
        · rintro ⟨e, he⟩; cases he
        · rintro (⟨e, he⟩ | ⟨r, hr, hr2⟩)
          · cases he
          · cases hr; exact absurd hr2 hc
  · intro resp h hc
    refine ⟨?_, htake resp, ?_⟩
    · rw [GetInfoWeather_ok net key country region w resp h, htake resp]
      simp only [hc, if_false]
    · rw [List.length_take]
      have := hlen resp
      omega
  · intro resp h he
    rw [GetInfoWeather_ok net key country region w resp h]
    have : delivered resp = 0 := by
      have := hlen resp
      rw [he] at this
      simpa using this
    simp [this]

/-- C9 (amended). The status code has no effect: with the status code of every response
replaced the run is the same. A response whose read delivers at least one byte and
reports no error is a success, with as many bytes as the read delivered. -/
theorem GetInfoWeather_ignores_status (net : String → Except String Response)
    (key country region : String) (w : World) (code : Int) :
    GetInfoWeather (withStatus code net) key country region w
      = GetInfoWeather net key country region w ∧
    (∀ resp, net (plainURL key country region) = .ok resp →
      0 < delivered resp → resp.Body.readErr = none →
      ∃ data, (GetInfoWeather net key country region w).1 = .ok data ∧
        data.length = delivered resp) := by
  constructor
  · cases h : net (plainURL key country region) with
    | error err =>
      have h2 : withStatus code net (plainURL key country region) = .error err := by
        simp [withStatus, h, Except.map]
      rw [GetInfoWeather_error net key country region w err h,
        GetInfoWeather_error _ key country region w err h2]
    | ok resp =>
      have h2 : withStatus code net (plainURL key country region)
          = .ok { resp with StatusCode := code } := by
        simp [withStatus, h, Except.map]
      rw [GetInfoWeather_ok net key country region w resp h,
        GetInfoWeather_ok _ key country region w _ h2]
      rfl
  · intro resp h hpos herr
    rw [GetInfoWeather_ok net key country region w resp h]
    have hc : ¬ (delivered resp = 0 ∨ resp.Body.readErr ≠ none) := by
      simp [herr]; omega
    simp only [hc, if_false]
    refine ⟨_, rfl, ?_⟩
    rw [List.length_take]
    have : delivered resp ≤ resp.Body.content.length := by rw [delivered_eq]; omega
    omega

/-- C9, counterexample. The first read of the response delivers two bytes and reports
the end of the stream: `GetInfoWeather` returns an error. -/
theorem bytes_with_read_error_fail :
    delivered shortResponse = 2 ∧
    (GetInfoWeather (always shortResponse) "key" "Russia" "Samara" World.start).1
      = .error "error return get pages" := by
  have h : always shortResponse (plainURL "key" "Russia" "Samara") = .ok shortResponse := rfl
  have hd : delivered shortResponse = 2 := by
    rw [delivered_eq]; rfl
  refine ⟨hd, ?_⟩
  have hn : shortResponse.Body.readErr = some "EOF" := rfl
  rw [GetInfoWeather_ok _ _ _ _ _ _ h]
  simp [hd, hn]

/-- C4, the code at the failing input. The body has 5000 bytes and the read reports no
error: `GetInfoWeather` returns its first 1014 bytes, not the body. -/
theorem large_body_is_truncated :
    largeResponse.Body.content.length = 5000 ∧
    largeResponse.Body.readErr = none ∧
    (GetInfoWeather (always largeResponse) "key" "Russia" "Samara" World.start).1
      = .ok (List.replicate 1014 32) ∧
    (GetInfoWeather (always largeResponse) "key" "Russia" "Samara" World.start).1
      ≠ .ok largeResponse.Body.content := by
  have h : always largeResponse (plainURL "key" "Russia" "Samara") = .ok largeResponse := rfl
  have hl : largeResponse.Body.content.length = 5000 := by
    simp only [largeResponse, List.length_replicate]
  have hd : delivered largeResponse = 1014 := by
    rw [delivered_eq, hl]; rfl
  have hr : (GetInfoWeather (always largeResponse) "key" "Russia" "Samara" World.start).1
      = .ok (List.replicate 1014 32) := by
    rw [GetInfoWeather_ok _ _ _ _ _ _ h, hd]
    have hn : largeResponse.Body.readErr = none := rfl
    simp only [hn]
    have ht : largeResponse.Body.content.take 1014 = List.replicate 1014 32 := by
      simp only [largeResponse, List.take_replicate]
      rfl
    simp only [ht]
    rfl
  refine ⟨hl, rfl, hr, ?_⟩
  rw [hr]
  intro he
  have := congrArg (fun r => match r with | Except.ok l => List.length l | _ => 0) he
  simp only [List.length_replicate, hl] at this
  exact absurd this (by decide)

/-- Three bytes read without error are a success. -/
theorem GetInfoWeather_ignores_status_witness :
    ∃ data, (GetInfoWeather (always smallResponse) "key" "Russia" "Samara" World.start).1
        = .ok data ∧ data.length = delivered smallResponse :=
  (GetInfoWeather_ignores_status (always smallResponse) "key" "Russia" "Samara"
    World.start 200).2 smallResponse rfl (by rw [delivered_eq]; decide) rfl

/-! ## Claims about the whole run -/

theorem report_writes_title (weather : WeatherResponse) (w : World) :
    ∃ t, (PrintWeatherReport weather w).2.stdout
      = w.stdout ++ ("=== Отчёт о погоде ===".data ++ '\n' :: t) := by
  cases hd : weather.Current.WeatherDescriptions with
  | nil =>
    rw [report_without_description weather w hd]
    exact ⟨_, rfl⟩
  | cons d ds =>
    cases hi : weather.Current.WeatherIcons with
    | nil =>
      rw [report_without_icon weather w d ds hd hi]
      exact ⟨_, rfl⟩
    | cons i is =>
      rw [report_complete weather w d i ds is hd hi]
      exact ⟨_, rfl⟩

/-- C8. In `ExampleRun` an error of `GetInfoWeather` or of the decoding ends the run with
`log.Fatal` in the state the fetch left: nothing of the report is written. The fetch
writes nothing to standard output but the error of a failed request. The report is
written, on the state the fetch left, exactly when both succeed, and it then begins with
its title. -/
theorem ExampleRun_aborts_on_failure (net : String → Except String Response)
    (parse : List UInt8 → Except String JSON) (w : World) :
    (∀ e, (GetInfoWeather net "ВАШ_КЛЮЧ" "Russia" "Samara" w).1 = .error e →
      ExampleRun net parse w
        = (.fatal e, (GetInfoWeather net "ВАШ_КЛЮЧ" "Russia" "Samara" w).2)) ∧
    (∀ data e, (GetInfoWeather net "ВАШ_КЛЮЧ" "Russia" "Samara" w).1 = .ok data →
      Unmarshal parse data WeatherResponse.zero = .error e →
      ExampleRun net parse w
        = (.fatal e, (GetInfoWeather net "ВАШ_КЛЮЧ" "Russia" "Samara" w).2)) ∧
    (∀ data weather, (GetInfoWeather net "ВАШ_КЛЮЧ" "Russia" "Samara" w).1 = .ok data →
      Unmarshal parse data WeatherResponse.zero = .ok weather →
      ExampleRun net parse w
        = PrintWeatherReport weather (GetInfoWeather net "ВАШ_КЛЮЧ" "Russia" "Samara" w).2) ∧
    ((GetInfoWeather net "ВАШ_КЛЮЧ" "Russia" "Samara" w).2.stdout = w.stdout ∨
      ∃ err, net (plainURL "ВАШ_КЛЮЧ" "Russia" "Samara") = .error err ∧
        (GetInfoWeather net "ВАШ_КЛЮЧ" "Russia" "Samara" w).2.stdout
          = w.stdout ++ (err.data ++ ['\n'])) ∧
    (∀ (weather : WeatherResponse) (v : World),
      ∃ t, (PrintWeatherReport weather v).2.stdout
        = v.stdout ++ ("=== Отчёт о погоде ===".data ++ '\n' :: t)) := by
  refine ⟨?_, ?_, ?_, ?_, report_writes_title⟩
  · intro e he
    unfold ExampleRun
    generalize GetInfoWeather net "ВАШ_КЛЮЧ" "Russia" "Samara" w = r at he ⊢
    obtain ⟨r1, r2⟩ := r
    cases he
    rfl
  · intro data e hd hu
    unfold ExampleRun
    generalize GetInfoWeather net "ВАШ_КЛЮЧ" "Russia" "Samara" w = r at hd ⊢
    obtain ⟨r1, r2⟩ := r
    cases hd
    simp only [hu]
  · intro data weather hd hu
    unfold ExampleRun
    generalize GetInfoWeather net "ВАШ_КЛЮЧ" "Russia" "Samara" w = r at hd ⊢
    obtain ⟨r1, r2⟩ := r
    cases hd
    simp only [hu]
  · cases h : net (plainURL "ВАШ_КЛЮЧ" "Russia" "Samara") with
    | error err =>
      right
      refine ⟨err, rfl, ?_⟩
      rw [GetInfoWeather_error net _ _ _ w err h]
      rfl
    | ok resp =>
      left
      rw [GetInfoWeather_ok net _ _ _ w resp h]

/-- A refused request and an undecodable body both end the run with `log.Fatal` in the
state the fetch left. -/
theorem ExampleRun_aborts_on_failure_witness :
    ExampleRun (fun _ => .error "dial tcp: no route") (fun _ => .ok .null) World.start
      = (.fatal "error get pages",
          (GetInfoWeather (fun _ => .error "dial tcp: no route")
            "ВАШ_КЛЮЧ" "Russia" "Samara" World.start).2) ∧
    ExampleRun (always smallResponse) (fun _ => .error "unexpected end of JSON input")
        World.start
      = (.fatal "unexpected end of JSON input",
          (GetInfoWeather (always smallResponse) "ВАШ_КЛЮЧ" "Russia" "Samara"
            World.start).2) :=
  ⟨(ExampleRun_aborts_on_failure (fun _ => .error "dial tcp: no route")
      (fun _ => .ok .null) World.start).1 "error get pages" rfl,
    (ExampleRun_aborts_on_failure (always smallResponse)
      (fun _ => .error "unexpected end of JSON input") World.start).2.1
      [123, 32, 125] "unexpected end of JSON input" (by
        rw [GetInfoWeather_ok _ _ _ _ _ _ (rfl : always smallResponse _ = .ok smallResponse)]
        have hd : delivered smallResponse = 3 := by rw [delivered_eq]; rfl
        have hn : smallResponse.Body.readErr = none := rfl
        simp only [hd, hn]
        rfl) rfl⟩

/-! ## Lemmas: the decoder -/

theorem sameLetter_iff (c t : Char) (ht : plainLetter t) :
    sameLetter c t = true ↔ foldChar c = t := by
  obtain ⟨hu, hk, hs⟩ := ht
  have hK : (Char.ofNat 0x212A).isUpper = false := by decide
  have hS : (Char.ofNat 0x017F).isUpper = false := by decide
  have hKS : Char.ofNat 0x212A ≠ Char.ofNat 0x017F := by decide
  unfold sameLetter foldChar
  by_cases hc : c.isUpper = true
  · have h1 : c ≠ t := fun e => by rw [e, hu] at hc; exact absurd hc (by decide)
    have h2 : c ≠ Char.ofNat 0x212A := fun e => by rw [e, hK] at hc; exact absurd hc (by decide)
    have h3 : c ≠ Char.ofNat 0x017F := fun e => by rw [e, hS] at hc; exact absurd hc (by decide)
    simp [hc, h1, h2, h3]
  · by_cases hck : c = Char.ofNat 0x212A
    · subst hck
      simp [hK, hKS, Ne.symm hk, eq_comm]
    · by_cases hcs : c = Char.ofNat 0x017F
      · subst hcs
        simp [hS, Ne.symm hKS, Ne.symm hs, eq_comm]
      · simp [hc, hck, hcs]

theorem sameName_iff (cs : List Char) :
    ∀ ts : List Char, (∀ t ∈ ts, plainLetter t) →
      (sameName cs ts = true ↔ cs.map foldChar = ts) := by
  induction cs with
  | nil => intro ts _; cases ts <;> simp [sameName]
  | cons c cs ih =>
    intro ts h
    cases ts with
    | nil => simp [sameName]
    | cons t ts =>
      have ht : plainLetter t := h t (by simp)
      have hts : ∀ x ∈ ts, plainLetter x := fun x hx => h x (by simp [hx])
      simp [sameName, sameLetter_iff c t ht, ih ts hts]

theorem selects_eq (key tag : String) (h : ∀ t ∈ tag.data, plainLetter t) :
    selects key tag = decide (foldName key = tag) := by
  have e : (foldName key = tag) ↔ key.data.map foldChar = tag.data := by
    unfold foldName
    constructor
    · intro h1; rw [← h1]
    · intro h1; exact String.ext h1
  rw [Bool.eq_iff_iff]
  simp only [selects, decide_eq_true_eq, e]
  exact sameName_iff key.data tag.data h

theorem selected_cons (tag : String) (m : String × JSON) (ms : List (String × JSON)) :
    selected tag (m :: ms) = selected tag [m] ++ selected tag ms := by
  unfold selected
  by_cases h : selects m.1 tag = true <;> simp [List.filter_cons, h]

theorem fieldValue_cons {α : Type} (over : α → JSON → α) (old : α) (tag : String)
    (m : String × JSON) (ms : List (String × JSON)) :
    fieldValue over old tag (m :: ms) = fieldValue over (fieldValue over old tag [m]) tag ms := by
  unfold fieldValue
  rw [selected_cons, List.foldl_append]

theorem fieldValue_single {α : Type} (over : α → JSON → α) (old : α) (tag : String)
    (m : String × JSON) :
    fieldValue over old tag [m] = if selects m.1 tag = true then over old m.2 else old := by
  unfold fieldValue selected
  by_cases h : selects m.1 tag = true <;> simp [List.filter_cons, h]

/-- The decoder walks the members; it agrees with the reading when every member fits. -/
theorem foldlM_members {α : Type} (step : α → String × JSON → Except String α)
    (read : α → List (String × JSON) → α) (fields : List (String × (JSON → Bool)))
    (hnil : ∀ a, read a [] = a)
    (hstep : ∀ a m, okMember fields m = true → step a m = .ok (read a [m]))
    (hcons : ∀ a m ms, read a (m :: ms) = read (read a [m]) ms)
    (ms : List (String × JSON)) :
    ∀ old : α, fits fields ms = true → ms.foldlM step old = .ok (read old ms) := by
  induction ms with
  | nil => intro old _; simp [hnil]; rfl
  | cons m ms ih =>
    intro old h
    simp only [fits, List.all_cons, Bool.and_eq_true] at h
    rw [List.foldlM_cons, hstep old m h.1]
    show ms.foldlM step (read old [m]) = _
    rw [ih _ (by simpa [fits] using h.2), hcons old m ms]

theorem decodeString_ok (old : String) (v : JSON) (h : okText v = true) :
    decodeString old v = .ok (textOver old v) := by
  cases v <;> first | rfl | simp [okText] at h

theorem decodeInt_ok (old : Int) (v : JSON) (h : okInt v = true) :
    decodeInt old v = .ok (intOver old v) := by
  cases v with
  | null => rfl
  | num i f =>
    cases i with
    | none => simp [okInt] at h
    | some i =>
      simp only [okInt, decide_eq_true_eq] at h
      have h2 : -(2 ^ 63 : Int) ≤ i ∧ i < 2 ^ 63 := by omega
      simp only [decodeInt, intOver, if_pos h2]
  | _ => simp [okInt] at h

theorem decodeFloat_ok (old : Float64) (v : JSON) (h : okFloat v = true) :
    decodeFloat old v = .ok (floatOver old v) := by
  cases v with
  | null => rfl
  | num i f => cases f <;> first | rfl | simp [okFloat] at h
  | _ => simp [okFloat] at h

theorem decodeElems_ok (xs : List JSON) :
    ∀ old : List String, xs.all isText = true →
      decodeElems old xs = .ok (xs.map (textOver "")) := by
  induction xs with
  | nil => intro old _; rfl
  | cons x xs ih =>
    intro old h
    simp only [List.all_cons, Bool.and_eq_true] at h
    obtain ⟨h1, h2⟩ := h
    cases x with
    | str s => simp only [decodeElems, decodeString, ih _ h2, List.map_cons, textOver]
    | _ => simp [isText] at h1

theorem decodeStrings_ok (old : List String) (v : JSON) (h : okList v = true) :
    decodeStrings old v = .ok (listOver old v) := by
  cases v with
  | null => rfl
  | arr xs => exact decodeElems_ok xs old h
  | _ => simp [okList] at h

theorem setField_ok_Request (old : Request) (m : String × JSON)
    (h : okMember requestFields m = true) :
    old.setField m.1 m.2 = .ok (readRequest old [m]) := by
  simp only [okMember, requestFields, List.all_cons, List.all_nil, Bool.and_true,
    Bool.and_eq_true, Bool.or_eq_true, Bool.not_eq_true',
    selects_eq _ "type" (by decide), selects_eq _ "query" (by decide),
    selects_eq _ "language" (by decide), selects_eq _ "unit" (by decide)] at h
  unfold Request.setField
  split <;>
    simp_all [
      readRequest, fieldValue_single, selects_eq _ "type" (by decide),
      selects_eq _ "query" (by decide), selects_eq _ "language" (by decide),
      selects_eq _ "unit" (by decide), decodeString_ok, Except.map]

theorem readRequest_cons (old : Request) (m : String × JSON)
    (ms : List (String × JSON)) :
    readRequest old (m :: ms) = readRequest (readRequest old [m]) ms := by
  simp only [readRequest]
  rw [
    fieldValue_cons textOver _ "type" m ms, fieldValue_cons textOver _ "query" m ms,
    fieldValue_cons textOver _ "language" m ms, fieldValue_cons textOver _ "unit" m ms]

theorem decodeRequest_ok (old : Request) (v : JSON)
    (h : okObject requestFields v = true) :
    decodeRequest old v = .ok (requestOver old v) := by
  cases v with
  | null => rfl
  | obj ms =>
    exact foldlM_members (fun r m => Request.setField r m.1 m.2) readRequest requestFields
      (fun _ => rfl) setField_ok_Request readRequest_cons ms old h
  | _ => simp [okObject] at h

theorem setField_ok_Location (old : Location) (m : String × JSON)
    (h : okMember locationFields m = true) :
    old.setField m.1 m.2 = .ok (readLocation old [m]) := by
  simp only [okMember, locationFields, List.all_cons, List.all_nil, Bool.and_true,
    Bool.and_eq_true, Bool.or_eq_true, Bool.not_eq_true',
    selects_eq _ "name" (by decide), selects_eq _ "country" (by decide),
    selects_eq _ "region" (by decide), selects_eq _ "lat" (by decide),
    selects_eq _ "lon" (by decide), selects_eq _ "timezone_id" (by decide),
    selects_eq _ "localtime" (by decide), selects_eq _ "localtime_epoch" (by decide),
    selects_eq _ "utc_offset" (by decide)] at h
  unfold Location.setField
  split <;>
    simp_all [
      readLocation, fieldValue_single, selects_eq _ "name" (by decide),
      selects_eq _ "country" (by decide), selects_eq _ "region" (by decide),
      selects_eq _ "lat" (by decide), selects_eq _ "lon" (by decide),
      selects_eq _ "timezone_id" (by decide), selects_eq _ "localtime" (by decide),
      selects_eq _ "localtime_epoch" (by decide), selects_eq _ "utc_offset" (by decide),
      decodeString_ok, decodeInt_ok, Except.map]

theorem readLocation_cons (old : Location) (m : String × JSON)
    (ms : List (String × JSON)) :
    readLocation old (m :: ms) = readLocation (readLocation old [m]) ms := by
  simp only [readLocation]
  rw [
    fieldValue_cons textOver _ "name" m ms, fieldValue_cons textOver _ "country" m ms,
    fieldValue_cons textOver _ "region" m ms, fieldValue_cons textOver _ "lat" m ms,
    fieldValue_cons textOver _ "lon" m ms, fieldValue_cons textOver _ "timezone_id" m ms,
    fieldValue_cons textOver _ "localtime" m ms,
    fieldValue_cons intOver _ "localtime_epoch" m ms,
    fieldValue_cons textOver _ "utc_offset" m ms]

theorem decodeLocation_ok (old : Location) (v : JSON)
    (h : okObject locationFields v = true) :
    decodeLocation old v = .ok (locationOver old v) := by
  cases v with
  | null => rfl
  | obj ms =>
    exact foldlM_members (fun r m => Location.setField r m.1 m.2) readLocation locationFields
      (fun _ => rfl) setField_ok_Location readLocation_cons ms old h
  | _ => simp [okObject] at h

theorem setField_ok_Astro (old : Astro) (m : String × JSON)
    (h : okMember astroFields m = true) :
    old.setField m.1 m.2 = .ok (readAstro old [m]) := by
  simp only [okMember, astroFields, List.all_cons, List.all_nil, Bool.and_true,
    Bool.and_eq_true, Bool.or_eq_true, Bool.not_eq_true',
    selects_eq _ "sunrise" (by decide), selects_eq _ "sunset" (by decide),
    selects_eq _ "moonrise" (by decide), selects_eq _ "moonset" (by decide),
    selects_eq _ "moon_phase" (by decide), selects_eq _ "moon_illumination" (by decide)] at h
  unfold Astro.setField
  split <;>
    simp_all [
      readAstro, fieldValue_single, selects_eq _ "sunrise" (by decide),
      selects_eq _ "sunset" (by decide), selects_eq _ "moonrise" (by decide),
      selects_eq _ "moonset" (by decide), selects_eq _ "moon_phase" (by decide),
      selects_eq _ "moon_illumination" (by decide), decodeString_ok, decodeInt_ok,
      Except.map]

theorem readAstro_cons (old : Astro) (m : String × JSON)
    (ms : List (String × JSON)) :
    readAstro old (m :: ms) = readAstro (readAstro old [m]) ms := by
  simp only [readAstro]
  rw [
    fieldValue_cons textOver _ "sunrise" m ms, fieldValue_cons textOver _ "sunset" m ms,
    fieldValue_cons textOver _ "moonrise" m ms, fieldValue_cons textOver _ "moonset" m ms,
    fieldValue_cons textOver _ "moon_phase" m ms,
    fieldValue_cons intOver _ "moon_illumination" m ms]

theorem decodeAstro_ok (old : Astro) (v : JSON)
    (h : okObject astroFields v = true) :
    decodeAstro old v = .ok (astroOver old v) := by
  cases v with
  | null => rfl
  | obj ms =>
    exact foldlM_members (fun r m => Astro.setField r m.1 m.2) readAstro astroFields
      (fun _ => rfl) setField_ok_Astro readAstro_cons ms old h
  | _ => simp [okObject] at h

theorem setField_ok_Current (old : Current) (m : String × JSON)
    (h : okMember currentFields m = true) :
    old.setField m.1 m.2 = .ok (readCurrent old [m]) := by
  simp only [okMember, currentFields, List.all_cons, List.all_nil, Bool.and_true,
    Bool.and_eq_true, Bool.or_eq_true, Bool.not_eq_true',
    selects_eq _ "observation_time" (by decide), selects_eq _ "temperature" (by decide),
    selects_eq _ "weather_code" (by decide), selects_eq _ "weather_icons" (by decide),
    selects_eq _ "weather_descriptions" (by decide), selects_eq _ "astro" (by decide),
    selects_eq _ "wind_speed" (by decide), selects_eq _ "wind_degree" (by decide),
    selects_eq _ "wind_dir" (by decide), selects_eq _ "pressure" (by decide),
    selects_eq _ "precip" (by decide), selects_eq _ "humidity" (by decide),
    selects_eq _ "cloudcover" (by decide), selects_eq _ "feelslike" (by decide),
    selects_eq _ "uv_index" (by decide), selects_eq _ "visibility" (by decide),
    selects_eq _ "is_day" (by decide)] at h
  unfold Current.setField
  split <;>
    simp_all [
      readCurrent, fieldValue_single, selects_eq _ "observation_time" (by decide),
      selects_eq _ "temperature" (by decide), selects_eq _ "weather_code" (by decide),
      selects_eq _ "weather_icons" (by decide),
      selects_eq _ "weather_descriptions" (by decide), selects_eq _ "astro" (by decide),
      selects_eq _ "wind_speed" (by decide), selects_eq _ "wind_degree" (by decide),
      selects_eq _ "wind_dir" (by decide), selects_eq _ "pressure" (by decide),
      selects_eq _ "precip" (by decide), selects_eq _ "humidity" (by decide),
      selects_eq _ "cloudcover" (by decide), selects_eq _ "feelslike" (by decide),
      selects_eq _ "uv_index" (by decide), selects_eq _ "visibility" (by decide),
      selects_eq _ "is_day" (by decide), astroOver, decodeString_ok, decodeInt_ok,
      decodeFloat_ok, decodeStrings_ok, decodeAstro_ok, Except.map]

theorem readCurrent_cons (old : Current) (m : String × JSON)
    (ms : List (String × JSON)) :
    readCurrent old (m :: ms) = readCurrent (readCurrent old [m]) ms := by
  simp only [readCurrent]
  rw [
    fieldValue_cons textOver _ "observation_time" m ms,
    fieldValue_cons intOver _ "temperature" m ms,
    fieldValue_cons intOver _ "weather_code" m ms,
    fieldValue_cons listOver _ "weather_icons" m ms,
    fieldValue_cons listOver _ "weather_descriptions" m ms,
    fieldValue_cons astroOver _ "astro" m ms, fieldValue_cons intOver _ "wind_speed" m ms,
    fieldValue_cons intOver _ "wind_degree" m ms,
    fieldValue_cons textOver _ "wind_dir" m ms, fieldValue_cons intOver _ "pressure" m ms,
    fieldValue_cons floatOver _ "precip" m ms, fieldValue_cons intOver _ "humidity" m ms,
    fieldValue_cons intOver _ "cloudcover" m ms,
    fieldValue_cons intOver _ "feelslike" m ms, fieldValue_cons intOver _ "uv_index" m ms,
    fieldValue_cons intOver _ "visibility" m ms, fieldValue_cons textOver _ "is_day" m ms]

theorem decodeCurrent_ok (old : Current) (v : JSON)
    (h : okObject currentFields v = true) :
    decodeCurrent old v = .ok (currentOver old v) := by
  cases v with
  | null => rfl
  | obj ms =>
    exact foldlM_members (fun r m => Current.setField r m.1 m.2) readCurrent currentFields
      (fun _ => rfl) setField_ok_Current readCurrent_cons ms old h
  | _ => simp [okObject] at h

theorem setField_ok_WeatherResponse (old : WeatherResponse) (m : String × JSON)
    (h : okMember weatherFields m = true) :
    old.setField m.1 m.2 = .ok (readWeatherResponse old [m]) := by
  simp only [okMember, weatherFields, List.all_cons, List.all_nil, Bool.and_true,
    Bool.and_eq_true, Bool.or_eq_true, Bool.not_eq_true',
    selects_eq _ "request" (by decide), selects_eq _ "location" (by decide),
    selects_eq _ "current" (by decide)] at h
  unfold WeatherResponse.setField
  split <;>
    simp_all [
      readWeatherResponse, fieldValue_single, selects_eq _ "request" (by decide),
      selects_eq _ "location" (by decide), selects_eq _ "current" (by decide), requestOver,
      locationOver, currentOver, decodeRequest_ok, decodeLocation_ok, decodeCurrent_ok,
      Except.map]

theorem readWeatherResponse_cons (old : WeatherResponse) (m : String × JSON)
    (ms : List (String × JSON)) :
    readWeatherResponse old (m :: ms) = readWeatherResponse (readWeatherResponse old [m]) ms := by
  simp only [readWeatherResponse]
  rw [
    fieldValue_cons requestOver _ "request" m ms,
    fieldValue_cons locationOver _ "location" m ms,
    fieldValue_cons currentOver _ "current" m ms]

theorem decodeWeatherResponse_ok (old : WeatherResponse) (v : JSON)
    (h : okObject weatherFields v = true) :
    decodeWeatherResponse old v = .ok (weatherOver old v) := by
  cases v with
  | null => rfl
  | obj ms =>
    exact foldlM_members (fun r m => WeatherResponse.setField r m.1 m.2)
      readWeatherResponse weatherFields (fun _ => rfl) setField_ok_WeatherResponse
      readWeatherResponse_cons ms old h
  | _ => simp [okObject] at h

/-! ## Claim about the decoder -/

end Weather
